import Mathlib

/-!
# Help desk tickets: SLA deadlines, ticket routes and SLA classification

A shallow embedding of

* `helpdesk-backend/models/Ticket.js`  (the Mongoose schemas and the `pre('validate')` hook),
* `helpdesk-backend/routes/tickets.js` (the Express routes over the `Ticket` collection),
* `helpdesk-frontend/src/App.js`       (`getSLAStatus`, `formatTimeLeft`).

Conventions.

* Time stamps are integers: milliseconds since the epoch, as returned by `Date.now()`.
* The clock is read through a function `clock : Nat → Time`; `clock k` is what the
  `k`-th call of `Date.now()` made while serving one request returns.
* ObjectIds are natural numbers; a string of a request is turned into one by `parseObjectId`.
* A collection is the list of its documents; `_id` is unique in it (the `_id` index).
* `populate(...)` replaces a user reference by the referenced user document in the reply
  only; the stored reference is what the model returns.
-/

namespace HelpDesk

/-- Milliseconds since the epoch. -/
abbrev Time := Int

/-- A Mongo ObjectId (a 96 bit value). -/
abbrev ObjectId := Nat

/-! ## Values of a JSON request body -/

/-- A value read from `req.body`, as `JSON.parse` hands it out. `undefined` is what
destructuring yields for an absent key. `num n` is a number whose value is an integer: the
double nearest to `n`. `fraction first rest` is any other number (one that is not an integer,
or an infinity): it is not zero, and the text `String(v)` of it is the character `first`
followed by `rest`. `array text` is an array, `text` being what `toString()` gives for it
(the texts of its elements, joined by commas). `object` is a plain object. -/
inductive JVal where
  | undefined
  | null
  | bool (b : Bool)
  | num (n : Int)
  | fraction (first : Char) (rest : String)
  | str (s : String)
  | array (text : String)
  | object
  deriving DecidableEq, Repr

/-- JavaScript truthiness, as used by `if (v)` and `v || d`. -/
def JVal.truthy : JVal → Bool
  | .undefined => false
  | .null => false
  | .bool b => b
  | .num n => n != 0
  | .fraction _ _ => true
  | .str s => s != ""
  | .array _ => true
  | .object => true

/-- A value is blank when it is the empty string or is missing (`undefined`, `null`). -/
def JVal.blank (v : JVal) : Prop := v = .str "" ∨ v = .undefined ∨ v = .null

instance (v : JVal) : Decidable v.blank := by
  unfold JVal.blank
  infer_instance

/-- The JavaScript expression `v || d`. -/
def JVal.orElse (v d : JVal) : JVal := if v.truthy then v else d

/-- What can be thrown inside the `try` block of a route. -/
inductive Err where
  /-- A Mongoose `ValidationError` (a required path is empty, a value is outside its enum,
  or a path of the document could not be cast). -/
  | validation
  /-- A `CastError` whose `kind` is `'ObjectId'`. -/
  | castObjectId
  /-- A `CastError` of another kind, raised by a query. -/
  | castOther
  /-- A `TypeError` (a property of `null` is read). -/
  | typeError
  /-- The persistence layer failed. -/
  | storage
  deriving DecidableEq, Repr

/-! ## The text of a number -/

/-- The number of binary digits of a natural number. -/
def bitLength (m : Nat) : Nat := (Nat.toDigits 2 m).length

/-- The number of decimal digits of a natural number. -/
def decimalLength (m : Nat) : Nat := (Nat.toDigits 10 m).length

/-- The double nearest to a natural number: below `2 ^ 53` the number itself, otherwise its
53 leading binary digits, rounded to the nearest (a tie goes to the even significand), with
the binary digits dropped replaced by zeros. A result of `2 ^ 1024` or more is `Infinity`. -/
def nearestDouble (m : Nat) : Nat :=
  if m < 2 ^ 53 then m
  else
    let e := bitLength m - 53
    let q := m / 2 ^ e
    let r := m % 2 ^ e
    if 2 * r > 2 ^ e ∨ (2 * r = 2 ^ e ∧ q % 2 = 1) then (q + 1) * 2 ^ e else q * 2 ^ e

/-- The decimal with `k` significant digits that reads back as the double `d`, when there is
one: its significand `s` and its length `n`, the decimal being `s * 10 ^ (n - k)`. Of two such
decimals the one nearer to `d` is taken (the even significand when they are equally near). -/
def candidate (d k : Nat) : Option (Nat × Nat) :=
  let n := decimalLength d
  let p := 10 ^ (n - k)
  let s0 := d / p
  let ok0 := nearestDouble (s0 * p) = d
  let ok1 := nearestDouble ((s0 + 1) * p) = d
  let pick1 : Nat × Nat := if s0 + 1 = 10 ^ k then (10 ^ (k - 1), n + 1) else (s0 + 1, n)
  if ok0 ∧ ok1 then
    if d - s0 * p < (s0 + 1) * p - d ∨ (d - s0 * p = (s0 + 1) * p - d ∧ s0 % 2 = 0)
    then some (s0, n) else some pick1
  else if ok0 then some (s0, n)
  else if ok1 then some pick1
  else none

/-- The decimal with the fewest significant digits that reads back as the double `d`, looked
for from `k` digits on. -/
def shortest (d : Nat) : Nat → Nat → Nat × Nat
  | 0, _ => (d, decimalLength d)
  | fuel + 1, k => match candidate d k with
    | some r => r
    | none => shortest d fuel (k + 1)

/-- The text `String(v)` for a finite double `v` that is a natural number of `2 ^ 53` or
more: the shortest digits that read back as `v`, followed by zeros when `v` is below
`10 ^ 21`, in exponent form otherwise. -/
def bigText (d : Nat) : String :=
  let (s, n) := shortest d 17 1
  let ds := (toString s).data
  if n ≤ 21 then toString s ++ String.mk (List.replicate (n - ds.length) '0')
  else
    String.mk (ds.take 1) ++ (if ds.length > 1 then "." ++ String.mk (ds.drop 1) else "") ++
      "e+" ++ toString (n - 1)

/-- The text `String(v)` for the double `v` nearest to the integer `n`. Integers below
`2 ^ 53` in absolute value are doubles and are written in decimal. -/
def numberText (n : Int) : String :=
  if n.natAbs < 2 ^ 53 then toString n
  else if bitLength (nearestDouble n.natAbs) > 1024 then
    (if n < 0 then "-Infinity" else "Infinity")
  else (if n < 0 then "-" else "") ++ bigText (nearestDouble n.natAbs)

/-! ## The casters of Mongoose -/

/-- The text `String(v)` of a value (`v.toString()` where `v` has that method). -/
def JVal.text : JVal → String
  | .undefined => "undefined"
  | .null => "null"
  | .bool b => if b then "true" else "false"
  | .num n => numberText n
  | .fraction first rest => String.mk (first :: rest.data)
  | .str s => s
  | .array text => text
  | .object => "[object Object]"

/-- The String caster of Mongoose: `null` and `undefined` are kept (`none`), strings are kept,
numbers and booleans are turned into their text, arrays and plain objects are refused. The
result is `none` when the cast throws. -/
def castString : JVal → Option (Option String)
  | .undefined => some none
  | .null => some none
  | .bool b => some (some (JVal.bool b).text)
  | .num n => some (some (JVal.num n).text)
  | .fraction first rest => some (some (JVal.fraction first rest).text)
  | .str s => some (some s)
  | .array _ => none
  | .object => none

/-- The value of one hexadecimal digit. -/
def hexDigit (c : Char) : Option Nat :=
  if c.toNat ≥ 48 ∧ c.toNat ≤ 57 then some (c.toNat - 48)
  else if c.toNat ≥ 97 ∧ c.toNat ≤ 102 then some (c.toNat - 87)
  else if c.toNat ≥ 65 ∧ c.toNat ≤ 70 then some (c.toNat - 55)
  else none

/-- The value of a string of hexadecimal digits, read from the left. -/
def hexValue : List Char → Nat → Option Nat
  | [], acc => some acc
  | c :: cs, acc => match hexDigit c with
    | some d => hexValue cs (16 * acc + d)
    | none => none

/-- The UTF-16 code units of a character: JavaScript strings are sequences of these. -/
def utf16 (c : Char) : List Nat :=
  if c.toNat < 65536 then [c.toNat]
  else [55296 + (c.toNat - 65536) / 1024, 56320 + (c.toNat - 65536) % 1024]

/-- The UTF-16 code units of a string; their number is the `length` of the string in
JavaScript. -/
def utf16Units : List Char → List Nat
  | [] => []
  | c :: cs => utf16 c ++ utf16Units cs

/-- The value of a sequence of bytes, read from the left; of a code unit its low byte
counts. -/
def bytesValue : List Nat → Nat → Nat
  | [], acc => acc
  | u :: us, acc => bytesValue us (256 * acc + u % 256)

/-- A string is read as an ObjectId when it is 24 hexadecimal digits (the form in which the
routes hand out ids) or when its length is 12, in which case its code units are the twelve
bytes of the id; any other string is refused. -/
def parseObjectId (s : String) : Option ObjectId :=
  if s.data.length = 24 then hexValue s.data 0
  else if (utf16Units s.data).length = 12 then some (bytesValue (utf16Units s.data) 0)
  else none

/-- The ObjectId caster of Mongoose on a body value: `null` and `undefined` are kept; any
other value is turned into its text, which is read as an ObjectId or refused (`none`: the
cast throws). -/
def castObjectId : JVal → Option (Option ObjectId)
  | .undefined => some none
  | .null => some none
  | v => (parseObjectId v.text).map some

/-! ## The schemas of `models/Ticket.js` -/

/-- A stored comment (`CommentSchema`). -/
structure Comment where
  _id : ObjectId
  user : ObjectId
  userName : Option String
  text : String
  createdAt : Time
  deriving DecidableEq, Repr

/-- A stored ticket (`TicketSchema`). -/
structure Ticket where
  _id : ObjectId
  title : String
  description : String
  status : String
  priority : String
  createdBy : ObjectId
  assignedTo : Option ObjectId
  slaDeadline : Time
  comments : List Comment
  createdAt : Time
  updatedAt : Time
  deriving DecidableEq, Repr

/-- The `enum` of the path `status`. -/
def statusEnum : List String := ["Open", "In Progress", "Resolved", "Closed"]

/-- The `enum` of the path `priority`. -/
def priorityEnum : List String := ["Low", "Medium", "High", "Critical"]

/-! ## The `pre('validate')` hook -/

/-- What a property read on the object literal `slaHours` yields. -/
inductive Looked where
  /-- An own property: a number of hours. -/
  | number (n : Nat)
  /-- A property found on `Object.prototype`: a function or an object. -/
  | inherited
  deriving DecidableEq, Repr

/-- The property names every object literal inherits from `Object.prototype`. -/
def objectPrototypeKeys : List String :=
  ["constructor", "__defineGetter__", "__defineSetter__", "hasOwnProperty",
   "__lookupGetter__", "__lookupSetter__", "isPrototypeOf", "propertyIsEnumerable",
   "toString", "valueOf", "__proto__", "toLocaleString"]

/-- The read `slaHours[key]` on the literal
`{ 'Critical': 1, 'High': 4, 'Medium': 8, 'Low': 24 }`; `none` is `undefined`. -/
def slaHours (key : String) : Option Looked :=
  if key = "Critical" then some (.number 1)
  else if key = "High" then some (.number 4)
  else if key = "Medium" then some (.number 8)
  else if key = "Low" then some (.number 24)
  else if key ∈ objectPrototypeKeys then some .inherited
  else none

/-- The expression `slaHours[this.priority] || 8`: a number read from the table is kept when
it is truthy, an inherited property is truthy and kept, `undefined` gives way to `8`. -/
def hoursFor (priority : String) : Looked :=
  match slaHours priority with
  | some (.number n) => if n = 0 then .number 8 else .number n
  | some .inherited => .inherited
  | none => .number 8

/-- The expression `new Date(Date.now() + hours * 60 * 60 * 1000)` where `Date.now()` is `t`:
`none` is the invalid date (the product is `NaN` when `hours` is not a number). -/
def deadlineAt (hours : Looked) (t : Time) : Option Time :=
  match hours with
  | .number n => some (t + (n : Int) * 60 * 60 * 1000)
  | .inherited => none

/-- A comment of a ticket document in memory, before validation. -/
structure CommentDoc where
  _id : ObjectId
  user : ObjectId
  userName : Option String
  text : Option String
  createdAt : Time
  deriving DecidableEq, Repr

/-- A ticket document in memory (`this` in the hook), before validation. `castFailed` records
that a value given to a path was refused by the caster of the path; `status`, `priority`,
`createdAt` and `updatedAt` always hold a value because the schema gives them a default. -/
structure Doc where
  isNew : Bool
  castFailed : Bool
  _id : ObjectId
  title : Option String
  description : Option String
  status : String
  priority : String
  createdBy : ObjectId
  assignedTo : Option ObjectId
  slaDeadline : Option Time
  comments : List CommentDoc
  createdAt : Time
  updatedAt : Time
  deriving DecidableEq, Repr

/-- The hook `TicketSchema.pre('validate', ...)`. `clock k` is the first reading of `Date.now()`
the hook takes, `clock (k + 1)` the second one. An invalid date is refused by the Date caster
and leaves `slaDeadline` unset. -/
def preValidate (doc : Doc) (clock : Nat → Time) (k : Nat) : Doc :=
  if doc.isNew ∧ doc.slaDeadline.isNone then
    let hours := hoursFor doc.priority
    match deadlineAt hours (clock k) with
    | some d => { doc with slaDeadline := some d, updatedAt := clock (k + 1) }
    | none => { doc with castFailed := true, updatedAt := clock (k + 1) }
  else
    { doc with updatedAt := clock k }

/-! ## Validation against the schemas -/

/-- The `required` validator of a String path: the value is a non-empty string. -/
def requiredString : Option String → Option String
  | some s => if s = "" then none else some s
  | none => none

/-- Validation of one comment against `CommentSchema`. -/
def validateComment (c : CommentDoc) : Option Comment :=
  match requiredString c.text with
  | some text => some
      { _id := c._id, user := c.user, userName := c.userName, text := text,
        createdAt := c.createdAt }
  | none => none

/-- Validation of all the comments of a document. -/
def validateComments : List CommentDoc → Option (List Comment)
  | [] => some []
  | c :: cs => match validateComment c, validateComments cs with
    | some c, some cs => some (c :: cs)
    | _, _ => none

/-- Validation of a document against `TicketSchema`, as run by `save()` after the hook: the
whole document is checked. The result is the document to persist. -/
def validate (doc : Doc) : Except Err Ticket :=
  if doc.castFailed then .error .validation
  else match requiredString doc.title, requiredString doc.description, doc.slaDeadline,
      validateComments doc.comments with
    | some title, some description, some slaDeadline, some comments =>
      if doc.status ∈ statusEnum ∧ doc.priority ∈ priorityEnum then
        .ok { _id := doc._id, title := title, description := description,
              status := doc.status, priority := doc.priority, createdBy := doc.createdBy,
              assignedTo := doc.assignedTo, slaDeadline := slaDeadline,
              comments := comments, createdAt := doc.createdAt, updatedAt := doc.updatedAt }
      else .error .validation
    | _, _, _, _ => .error .validation

/-! ## The collection -/

/-- The `Ticket` collection. -/
abbrev Store := List Ticket

/-- The query `Ticket.findById(id)` for an id that is an ObjectId. -/
def findById (s : Store) (id : ObjectId) : Option Ticket :=
  s.find? (fun t => t._id == id)

/-- Insertion of a new document; a second document with the same `_id` is refused by the
`_id` index. -/
def insertDoc (s : Store) (t : Ticket) : Except Err Store :=
  if (findById s t._id).isSome then .error .storage else .ok (s ++ [t])

/-- The document with the given `_id` (there is at most one) is replaced by its image. -/
def updateById (s : Store) (id : ObjectId) (f : Ticket → Ticket) : Store :=
  s.map (fun t => if t._id == id then f t else t)

/-- The document with the given `_id` (there is at most one) is removed. -/
def removeById (s : Store) (id : ObjectId) : Store :=
  s.filter (fun t => !(t._id == id))

/-! ## Replies -/

/-- What a route sends back. -/
inductive Response where
  /-- Status 200 and `res.json(ticket)`. -/
  | json (t : Ticket)
  /-- Status 200 and `res.json(null)`: the query of the reply found nothing. -/
  | jsonNull
  /-- Status 200 and `res.json(tickets)`. -/
  | jsonList (ts : List Ticket)
  /-- Status 200 and `{ msg: 'Ticket removed' }`. -/
  | removed
  /-- Status 404 and `{ msg: 'Ticket not found' }`. -/
  | notFound
  /-- Status 500 and `'Server error'`. -/
  | serverError
  deriving DecidableEq, Repr

/-- The `catch` block of `GET /` and of `POST /`: every error is answered alike. -/
def plainCatch (_e : Err) : Response := .serverError

/-- The `catch` block of the routes on `/:id`: `err.kind === 'ObjectId'` is answered by 404. -/
def byIdCatch (e : Err) : Response :=
  match e with
  | .castObjectId => .notFound
  | _ => .serverError

/-- The reply `res.json(doc)` for the result of a query. -/
def replyWith : Option Ticket → Response
  | some t => .json t
  | none => .jsonNull

/-! ## `POST /api/tickets` -/

/-- The keys of `req.body` the create route reads. -/
structure CreateBody where
  title : JVal
  description : JVal
  priority : JVal
  deriving DecidableEq, Repr

/-- The document built by
`new Ticket({ title, description, priority: priority || 'Medium', createdBy: req.user.id })`.
The constant defaults (`status`, `priority`) are in place before the given values are set, so
a refused value leaves the default; the defaults `Date.now` of `createdAt` and `updatedAt` are
the first two readings of the clock. `req.user.id` is the id of the authenticated user. -/
def newTicket (newId userId : ObjectId) (body : CreateBody) (clock : Nat → Time) : Doc :=
  let title := castString body.title
  let description := castString body.description
  let priority := castString (body.priority.orElse (.str "Medium"))
  { isNew := true
    castFailed := title.isNone || description.isNone || priority.isNone
    _id := newId
    title := title.join
    description := description.join
    status := "Open"
    priority := priority.join.getD "Medium"
    createdBy := userId
    assignedTo := none
    slaDeadline := none
    comments := []
    createdAt := clock 0
    updatedAt := clock 1 }

/-- The call `newTicket.save()`: hook, validation, insertion. The hook reads the clock from
reading `k` on. -/
def saveNew (s : Store) (doc : Doc) (clock : Nat → Time) (k : Nat) :
    Except Err (Store × Ticket) :=
  match validate (preValidate doc clock k) with
  | .error e => .error e
  | .ok t => match insertDoc s t with
    | .error e => .error e
    | .ok s1 => .ok (s1, t)

/-- The `try` block of `router.post('/')`. -/
def postTicketTry (s : Store) (userId newId : ObjectId) (clock : Nat → Time)
    (body : CreateBody) : Except Err (Store × Response) :=
  match saveNew s (newTicket newId userId body clock) clock 2 with
  | .error e => .error e
  | .ok (s1, ticket) => .ok (s1, replyWith (findById s1 ticket._id))

/-- The route `router.post('/')`: a failure leaves the collection as it was. -/
def postTicket (s : Store) (userId newId : ObjectId) (clock : Nat → Time)
    (body : CreateBody) : Store × Response :=
  match postTicketTry s userId newId clock body with
  | .ok r => r
  | .error e => (s, plainCatch e)

/-! ## `PUT /api/tickets/:id` -/

/-- The keys of `req.body` of an update: the five keys the route destructures, and four keys
a request may carry that the route never reads. -/
structure UpdateBody where
  title : JVal
  description : JVal
  status : JVal
  priority : JVal
  assignedTo : JVal
  createdBy : JVal
  slaDeadline : JVal
  createdAt : JVal
  comments : JVal
  deriving DecidableEq, Repr

/-- The object `updateFields`: `none` is an absent key. -/
structure UpdateFields where
  title : Option JVal
  description : Option JVal
  status : Option JVal
  priority : Option JVal
  assignedTo : Option JVal
  deriving DecidableEq, Repr

/-- The statement `if (v) updateFields.k = v`. -/
def pick (v : JVal) : Option JVal := if v.truthy then some v else none

/-- The five statements that fill `updateFields`. -/
def updateFields (body : UpdateBody) : UpdateFields :=
  { title := pick body.title
    description := pick body.description
    status := pick body.status
    priority := pick body.priority
    assignedTo := pick body.assignedTo }

/-- The operator `$set` after its values went through the casters of their paths. -/
structure SetDoc where
  title : Option String
  description : Option String
  status : Option String
  priority : Option String
  assignedTo : Option ObjectId
  deriving DecidableEq, Repr

/-- The cast of one String path of `$set`. A key holding `null` is not among those the route
writes (they are truthy); it leaves the path as it is here. -/
def castStringPath : Option JVal → Except Err (Option String)
  | none => .ok none
  | some v => match castString v with
    | some r => .ok r
    | none => .error .castOther

/-- The cast of one ObjectId path of `$set`. -/
def castObjectIdPath : Option JVal → Except Err (Option ObjectId)
  | none => .ok none
  | some v => match castObjectId v with
    | some r => .ok r
    | none => .error .castObjectId

/-- The cast of `{ $set: updateFields }`: Mongoose walks the keys from the last inserted
to the first, and the first refused value throws. No validator runs and no document hook runs
on this path. -/
def castUpdate (f : UpdateFields) : Except Err SetDoc :=
  match castObjectIdPath f.assignedTo with
  | .error e => .error e
  | .ok assignedTo => match castStringPath f.priority with
    | .error e => .error e
    | .ok priority => match castStringPath f.status with
      | .error e => .error e
      | .ok status => match castStringPath f.description with
        | .error e => .error e
        | .ok description => match castStringPath f.title with
          | .error e => .error e
          | .ok title => .ok
              { title := title, description := description, status := status,
                priority := priority, assignedTo := assignedTo }

/-- The effect of `$set` on a stored ticket. -/
def applySet (u : SetDoc) (t : Ticket) : Ticket :=
  { t with
    title := u.title.getD t.title
    description := u.description.getD t.description
    status := u.status.getD t.status
    priority := u.priority.getD t.priority
    assignedTo := match u.assignedTo with
      | some a => some a
      | none => t.assignedTo }

/-- The query `Ticket.findByIdAndUpdate(id, { $set: updateFields }, { new: true })`: the
document after the update is returned. -/
def findByIdAndUpdate (s : Store) (id : ObjectId) (f : UpdateFields) :
    Except Err (Store × Option Ticket) :=
  match castUpdate f with
  | .error e => .error e
  | .ok u =>
    let s1 := updateById s id (applySet u)
    .ok (s1, findById s1 id)

/-- The `try` block of `router.put('/:id')`. -/
def putTicketTry (s : Store) (id : String) (body : UpdateBody) :
    Except Err (Store × Response) :=
  match parseObjectId id with
  | none => .error .castObjectId
  | some oid => match findById s oid with
    | none => .ok (s, .notFound)
    | some _ => match findByIdAndUpdate s oid (updateFields body) with
      | .error e => .error e
      | .ok (s1, ticket) => .ok (s1, replyWith ticket)

/-- The route `router.put('/:id')`. -/
def putTicket (s : Store) (id : String) (body : UpdateBody) : Store × Response :=
  match putTicketTry s id body with
  | .ok r => r
  | .error e => (s, byIdCatch e)

/-- The body `{ status: "Resolved" }`. -/
def resolvedBody : UpdateBody :=
  { title := .undefined, description := .undefined, status := .str "Resolved",
    priority := .undefined, assignedTo := .undefined, createdBy := .undefined,
    slaDeadline := .undefined, createdAt := .undefined, comments := .undefined }

/-! ## `DELETE /api/tickets/:id` and the two `GET` routes -/

/-- The `try` block of `router.delete('/:id')`. -/
def deleteTicketTry (s : Store) (id : String) : Except Err (Store × Response) :=
  match parseObjectId id with
  | none => .error .castObjectId
  | some oid => match findById s oid with
    | none => .ok (s, .notFound)
    | some ticket => .ok (removeById s ticket._id, .removed)

/-- The route `router.delete('/:id')`. -/
def deleteTicket (s : Store) (id : String) : Store × Response :=
  match deleteTicketTry s id with
  | .ok r => r
  | .error e => (s, byIdCatch e)

/-- The route `router.get('/:id')`. -/
def getTicket (s : Store) (id : String) : Response :=
  match parseObjectId id with
  | none => byIdCatch .castObjectId
  | some oid => match findById s oid with
    | none => .notFound
    | some ticket => .json ticket

/-- The query `Ticket.find().sort({ createdAt: -1 })`. -/
def findSorted (s : Store) : List Ticket :=
  s.insertionSort (fun a b => b.createdAt ≤ a.createdAt)

/-- The route `router.get('/')`. -/
def getTickets (s : Store) : Response := .jsonList (findSorted s)

/-! ## `POST /api/tickets/:id/comments` -/

/-- What `User.findById(req.user.id).select('name')` yields for a user that exists. -/
structure UserDoc where
  name : Option String
  deriving DecidableEq, Repr

/-- A stored comment as part of a document loaded by a query. -/
def loadComment (c : Comment) : CommentDoc :=
  { _id := c._id, user := c.user, userName := c.userName, text := some c.text,
    createdAt := c.createdAt }

/-- A stored ticket as the document a query hands out: it is not new. -/
def load (t : Ticket) : Doc :=
  { isNew := false
    castFailed := false
    _id := t._id
    title := some t.title
    description := some t.description
    status := t.status
    priority := t.priority
    createdBy := t.createdBy
    assignedTo := t.assignedTo
    slaDeadline := some t.slaDeadline
    comments := t.comments.map loadComment
    createdAt := t.createdAt
    updatedAt := t.updatedAt }

/-- The call `ticket.comments.push({ user: req.user.id, userName: user.name, text })`: the new
comment goes to the end of the array; its `createdAt` is the default `Date.now`, read at
`clock k`. -/
def pushComment (doc : Doc) (commentId userId : ObjectId) (userName : Option String)
    (text : JVal) (clock : Nat → Time) (k : Nat) : Doc :=
  let cast := castString text
  { doc with
    castFailed := doc.castFailed || cast.isNone
    comments := doc.comments ++
      [{ _id := commentId, user := userId, userName := userName, text := cast.join,
         createdAt := clock k }] }

/-- The call `ticket.save()` on a loaded document: hook, validation, and the stored document
is replaced. The hook reads the clock from reading `k` on. -/
def saveLoaded (s : Store) (doc : Doc) (clock : Nat → Time) (k : Nat) : Except Err Store :=
  match validate (preValidate doc clock k) with
  | .error e => .error e
  | .ok t => .ok (updateById s doc._id (fun _ => t))

/-- The `try` block of `router.post('/:id/comments')`. `user` is the result of the query for
the acting user (`none` when there is no such user: reading `user.name` throws). -/
def postCommentTry (s : Store) (id : String) (userId : ObjectId) (user : Option UserDoc)
    (commentId : ObjectId) (clock : Nat → Time) (text : JVal) :
    Except Err (Store × Response) :=
  match parseObjectId id with
  | none => .error .castObjectId
  | some oid => match findById s oid with
    | none => .ok (s, .notFound)
    | some ticket => match user with
      | none => .error .typeError
      | some u =>
        match saveLoaded s (pushComment (load ticket) commentId userId u.name text clock 0)
            clock 1 with
        | .error e => .error e
        | .ok s1 => .ok (s1, replyWith (findById s1 oid))

/-- The route `router.post('/:id/comments')`. -/
def postComment (s : Store) (id : String) (userId : ObjectId) (user : Option UserDoc)
    (commentId : ObjectId) (clock : Nat → Time) (text : JVal) : Store × Response :=
  match postCommentTry s id userId user commentId clock text with
  | .ok r => r
  | .error e => (s, byIdCatch e)

/-- A stored ticket satisfies the schemas: its title and description are not empty, its
status and priority are in their enums, and no comment of it has an empty text. -/
def ValidTicket (t : Ticket) : Prop :=
  t.title ≠ "" ∧ t.description ≠ "" ∧ t.status ∈ statusEnum ∧ t.priority ∈ priorityEnum ∧
  ∀ c ∈ t.comments, c.text ≠ ""

instance (t : Ticket) : Decidable (ValidTicket t) := by
  unfold ValidTicket
  infer_instance

/-! ## Sequences of requests -/

/-- A request to one of the four routes that change the collection, with what the
environment supplies while it is served. -/
inductive Request where
  | create (userId newId : ObjectId) (clock : Nat → Time) (body : CreateBody)
  | update (id : String) (body : UpdateBody)
  | comment (id : String) (userId : ObjectId) (user : Option UserDoc) (commentId : ObjectId)
      (clock : Nat → Time) (text : JVal)
  | delete (id : String)

/-- The collection after a request was served. -/
def serve (s : Store) : Request → Store
  | .create userId newId clock body => (postTicket s userId newId clock body).1
  | .update id body => (putTicket s id body).1
  | .comment id userId user commentId clock text =>
      (postComment s id userId user commentId clock text).1
  | .delete id => (deleteTicket s id).1

/-- The collection after a sequence of requests, served from the left. -/
def serveAll (s : Store) (rs : List Request) : Store := rs.foldl serve s

/-- A collection is reachable when it is what a sequence of requests makes of the empty one. -/
def Reachable (s : Store) : Prop := ∃ rs : List Request, serveAll [] rs = s

/-! ## Readings of the clock over a sequence of requests -/

/-- The readings of the clock a request may take while it is served, in the order in which
they are taken: four for a creation (the defaults of `createdAt` and `updatedAt`, then the
two of the hook), two for a comment (the default of the comment's `createdAt`, then the one of
the hook), none for an update and for a deletion. -/
def Request.readings : Request → List Time
  | .create _ _ clock _ => [clock 0, clock 1, clock 2, clock 3]
  | .comment _ _ _ _ clock _ => [clock 0, clock 1]
  | .update _ _ => []
  | .delete _ => []

/-- The readings of the clock over a sequence of requests, in the order they are taken. -/
def allReadings : List Request → List Time
  | [] => []
  | r :: rs => r.readings ++ allReadings rs

/-- The clock never decreases over a sequence of requests: every reading is at most every
later one. -/
def ClockNeverDecreases (rs : List Request) : Prop :=
  (allReadings rs).Pairwise (fun a b => a ≤ b)

instance (rs : List Request) : Decidable (ClockNeverDecreases rs) := by
  unfold ClockNeverDecreases
  infer_instance

/-! ## The SLA display of `App.js` -/

/-- The object `getSLAStatus` returns. -/
structure SLAStatus where
  status : String
  color : String
  bg : String
  deriving DecidableEq, Repr

/-- The function `getSLAStatus(ticket)` of `App.js`, where `new Date()` is `now` and
`new Date(ticket.slaDeadline)` is the stored deadline. `hoursLeft` is the quotient of an
integer by `1000 * 60 * 60`, a rational number. -/
def getSLAStatus (ticket : Ticket) (now : Time) : SLAStatus :=
  let timeLeft : Int := ticket.slaDeadline - now
  let hoursLeft : ℚ := (timeLeft : ℚ) / (1000 * 60 * 60)
  if ticket.status = "Resolved" ∨ ticket.status = "Closed" then
    { status := "Met", color := "text-green-600", bg := "bg-green-50" }
  else if hoursLeft < 0 then
    { status := "Breached", color := "text-red-600", bg := "bg-red-50" }
  else if hoursLeft < 1 then
    { status := "Critical", color := "text-orange-600", bg := "bg-orange-50" }
  else
    { status := "On Track", color := "text-blue-600", bg := "bg-blue-50" }

/-- The rank of an SLA status in the order On Track, Critical, Breached (0, 1, 2); Met ranks
with On Track. -/
def slaRank (status : String) : Nat :=
  if status = "Breached" then 2 else if status = "Critical" then 1 else 0

/-- The function `formatTimeLeft(deadline)` of `App.js`, where `new Date()` is `now`. -/
def formatTimeLeft (deadline now : Time) : String :=
  let diff : Int := deadline - now
  let hours : Nat := diff.natAbs / (1000 * 60 * 60)
  let minutes : Nat := (diff.natAbs % (1000 * 60 * 60)) / (1000 * 60)
  if diff < 0 then
    "Overdue by " ++ toString hours ++ "h " ++ toString minutes ++ "m"
  else
    toString hours ++ "h " ++ toString minutes ++ "m left"

/-! ## The offsets the specification states -/

/-- Stated by the specification: the SLA offset of a priority, in hours (1 for Critical, 4 for
High, 8 for Medium, 24 for Low, and the Medium offset for every other value). -/
def offsetHours (p : String) : Nat :=
  if p = "Critical" then 1
  else if p = "High" then 4
  else if p = "Medium" then 8
  else if p = "Low" then 24
  else 8

/-- Stated by the specification: the SLA offset of a priority, in milliseconds. -/
def offsetMs (p : String) : Int := (offsetHours p : Int) * 60 * 60 * 1000

/-! ## Lemmas on the collection -/

theorem findById_nil (id : ObjectId) : findById [] id = none := rfl

theorem findById_cons (a : Ticket) (s : Store) (id : ObjectId) :
    findById (a :: s) id = if a._id = id then some a else findById s id := by
  unfold findById
  by_cases h : a._id = id <;> simp [List.find?_cons, h]

theorem updateById_cons (a : Ticket) (s : Store) (id : ObjectId) (f : Ticket → Ticket) :
    updateById (a :: s) id f = (if a._id = id then f a else a) :: updateById s id f := by
  unfold updateById
  by_cases h : a._id = id <;> simp [h]

theorem removeById_cons (a : Ticket) (s : Store) (id : ObjectId) :
    removeById (a :: s) id = if a._id = id then removeById s id else a :: removeById s id := by
  unfold removeById
  by_cases h : a._id = id <;> simp [List.filter_cons, h]

theorem findById_some_id {s : Store} {id : ObjectId} {t : Ticket}
    (h : findById s id = some t) : t._id = id := by
  have := List.find?_some h
  simpa using this

theorem findById_updateById_same (s : Store) (id : ObjectId) (f : Ticket → Ticket)
    (hf : ∀ t : Ticket, t._id = id → (f t)._id = id) :
    findById (updateById s id f) id = (findById s id).map f := by
  induction s with
  | nil => rfl
  | cons a s ih =>
    rw [updateById_cons, findById_cons, findById_cons]
    by_cases ha : a._id = id
    · simp [ha, hf a ha]
    · simp [ha, ih]

theorem findById_updateById_ne (s : Store) (id j : ObjectId) (f : Ticket → Ticket)
    (hf : ∀ t : Ticket, t._id = id → (f t)._id = id) (hj : j ≠ id) :
    findById (updateById s id f) j = findById s j := by
  induction s with
  | nil => rfl
  | cons a s ih =>
    rw [updateById_cons, findById_cons, findById_cons]
    by_cases ha : a._id = id
    · have h1 : ¬ a._id = j := fun h => hj (h ▸ ha)
      have h2 : ¬ (f a)._id = j := by rw [hf a ha]; exact fun h => hj h.symm
      rw [if_pos ha, if_neg h2, if_neg h1, ih]
    · simp [ha, ih]

theorem findById_removeById_same (s : Store) (id : ObjectId) :
    findById (removeById s id) id = none := by
  induction s with
  | nil => rfl
  | cons a s ih =>
    rw [removeById_cons]
    by_cases ha : a._id = id
    · simp [ha, ih]
    · simp [ha, ih, findById_cons]

theorem findById_removeById_ne (s : Store) (id j : ObjectId) (hj : j ≠ id) :
    findById (removeById s id) j = findById s j := by
  induction s with
  | nil => rfl
  | cons a s ih =>
    rw [removeById_cons, findById_cons]
    by_cases ha : a._id = id
    · have h1 : ¬ a._id = j := fun h => hj (h ▸ ha)
      rw [if_pos ha, if_neg h1, ih]
    · simp [ha, ih, findById_cons]

theorem findById_append_new (s : Store) (t : Ticket) (h : findById s t._id = none) :
    findById (s ++ [t]) t._id = some t := by
  unfold findById at *
  simp [List.find?_append, h]

/-! ## Lemmas on the hook and on validation -/

theorem hoursFor_of_mem_priorityEnum (p : String) (hp : p ∈ priorityEnum) :
    hoursFor p = .number (offsetHours p) := by
  simp only [priorityEnum, List.mem_cons, List.mem_singleton, List.not_mem_nil, or_false] at hp
  rcases hp with rfl | rfl | rfl | rfl <;> decide

theorem hoursFor_of_not_inherited (p : String) (hp : p ∉ objectPrototypeKeys) :
    hoursFor p = .number (offsetHours p) := by
  unfold hoursFor slaHours offsetHours
  by_cases h1 : p = "Critical"
  · simp [h1]
  by_cases h2 : p = "High"
  · simp [h2]
  by_cases h3 : p = "Medium"
  · simp [h3]
  by_cases h4 : p = "Low"
  · simp [h4]
  simp [h1, h2, h3, h4, hp]

theorem hoursFor_of_inherited (p : String) (hp : p ∈ objectPrototypeKeys) :
    hoursFor p = .inherited := by
  simp only [objectPrototypeKeys, List.mem_cons, List.mem_singleton, List.not_mem_nil,
    or_false] at hp
  rcases hp with rfl | rfl | rfl | rfl | rfl | rfl | rfl | rfl | rfl | rfl | rfl | rfl <;> decide

theorem deadlineAt_of_not_inherited (p : String) (t : Time) (hp : p ∉ objectPrototypeKeys) :
    deadlineAt (hoursFor p) t = some (t + offsetMs p) := by
  rw [hoursFor_of_not_inherited p hp]
  rfl

theorem validate_ok {doc : Doc} {t : Ticket} (h : validate doc = .ok t) :
    doc.castFailed = false ∧ requiredString doc.title = some t.title ∧
    requiredString doc.description = some t.description ∧
    doc.slaDeadline = some t.slaDeadline ∧ validateComments doc.comments = some t.comments ∧
    doc.status ∈ statusEnum ∧ doc.priority ∈ priorityEnum ∧
    t._id = doc._id ∧ t.status = doc.status ∧ t.priority = doc.priority ∧
    t.createdBy = doc.createdBy ∧ t.assignedTo = doc.assignedTo ∧
    t.createdAt = doc.createdAt ∧ t.updatedAt = doc.updatedAt := by
  unfold validate at h
  split at h
  · exact absurd h (by simp)
  · rename_i hc
    split at h
    · rename_i title description sla comments h1 h2 h3 h4
      split at h
      · rename_i he
        injection h with h
        subst h
        simp_all
      · exact absurd h (by simp)
    · exact absurd h (by simp)

theorem requiredString_some {v : Option String} {s : String} (h : requiredString v = some s) :
    v = some s ∧ s ≠ "" := by
  unfold requiredString at h
  split at h
  · split at h
    · exact absurd h (by simp)
    · rename_i hs
      injection h with h
      subst h
      exact ⟨rfl, hs⟩
  · exact absurd h (by simp)

/-! ## Lemmas on the create route -/

theorem postTicket_eq (s : Store) (userId newId : ObjectId) (clock : Nat → Time)
    (body : CreateBody) :
    postTicket s userId newId clock body =
      match validate (preValidate (newTicket newId userId body clock) clock 2) with
      | .error _ => (s, .serverError)
      | .ok t =>
        if (findById s t._id).isSome then (s, .serverError)
        else (s ++ [t], replyWith (findById (s ++ [t]) t._id)) := by
  unfold postTicket postTicketTry saveNew insertDoc plainCatch
  cases validate (preValidate (newTicket newId userId body clock) clock 2) with
  | error e => rfl
  | ok t =>
    by_cases h : (findById s t._id).isSome
    · simp [h]
    · simp [h]

theorem postTicket_json {s : Store} {userId newId : ObjectId} {clock : Nat → Time}
    {body : CreateBody} {t : Ticket}
    (h : (postTicket s userId newId clock body).2 = .json t) :
    postTicket s userId newId clock body = (s ++ [t], .json t) ∧
    validate (preValidate (newTicket newId userId body clock) clock 2) = .ok t ∧
    findById s newId = none := by
  rw [postTicket_eq] at h ⊢
  cases hv : validate (preValidate (newTicket newId userId body clock) clock 2) with
  | error e => rw [hv] at h; exact absurd h (by simp)
  | ok u =>
    rw [hv] at h
    have hid : u._id = newId := by
      have := (validate_ok hv).2.2.2.2.2.2.2.1
      rw [this]
      unfold preValidate newTicket
      dsimp only
      split
      · split <;> rfl
      · rfl
    by_cases hf : (findById s u._id).isSome
    · simp [hf] at h
    · have hnone : findById s u._id = none := by simpa using hf
      simp only [hf, Bool.false_eq_true, if_false] at h ⊢
      rw [findById_append_new s u hnone] at h ⊢
      simp only [replyWith, Response.json.injEq] at h
      subst h
      exact ⟨rfl, rfl, hid ▸ hnone⟩

theorem preValidate_newTicket_ok {newId userId : ObjectId} {body : CreateBody}
    {clock : Nat → Time} {t : Ticket}
    (h : validate (preValidate (newTicket newId userId body clock) clock 2) = .ok t) :
    t._id = newId ∧ t.status = "Open" ∧ t.priority ∈ priorityEnum ∧
    castString (body.priority.orElse (.str "Medium")) = some (some t.priority) ∧
    castString body.title = some (some t.title) ∧ t.title ≠ "" ∧
    castString body.description = some (some t.description) ∧ t.description ≠ "" ∧
    t.createdBy = userId ∧ t.assignedTo = none ∧ t.comments = [] ∧
    t.slaDeadline = clock 2 + offsetMs t.priority ∧
    t.createdAt = clock 0 ∧ t.updatedAt = clock 3 := by
  have hv := validate_ok h
  obtain ⟨hc, ht, hd, hs, hcm, _, hpe, hid, hst, hpr, hcb, hat, hca, hua⟩ := hv
  have hpe2 : t.priority ∈ priorityEnum := hpr ▸ hpe
  unfold preValidate at hc ht hd hs hcm hid hst hpr hcb hat hca hua
  have hnew : (newTicket newId userId body clock).isNew = true ∧
      (newTicket newId userId body clock).slaDeadline.isNone = true := ⟨rfl, rfl⟩
  simp only [hnew, and_self, if_true] at hc ht hd hs hcm hid hst hpr hcb hat hca hua
  cases hdl : deadlineAt (hoursFor (newTicket newId userId body clock).priority) (clock 2) with
  | none => simp [hdl] at hc
  | some d =>
    simp only [hdl] at hc ht hd hs hcm hid hst hpr hcb hat hca hua
    have hpd : (newTicket newId userId body clock).priority = t.priority := hpr.symm
    rw [hpd, hoursFor_of_mem_priorityEnum _ hpe2] at hdl
    have hd' : d = clock 2 + offsetMs t.priority := by
      unfold deadlineAt at hdl
      simp only [Option.some.injEq] at hdl
      rw [← hdl]; rfl
    have hsla : t.slaDeadline = d := by
      simp only [Option.some.injEq] at hs
      exact hs.symm
    obtain ⟨ht1, ht2⟩ := requiredString_some ht
    obtain ⟨hd1, hd2⟩ := requiredString_some hd
    unfold newTicket at hc ht1 hd1 hcm hid hst hpd hcb hat hca
    simp only [Bool.or_eq_false_iff, Option.isNone_eq_false_iff] at hc
    have hjoin : ∀ (o : Option (Option String)) (x : String), o.join = some x → o = some (some x) := by
      intro o x ho
      cases o with
      | none => simp at ho
      | some y => cases y with
        | none => simp at ho
        | some z => simp at ho; rw [ho]
    have hcm' : t.comments = [] := by
      simp only [validateComments, Option.some.injEq] at hcm
      exact hcm.symm
    refine ⟨hid, hst, hpe2, ?_, hjoin _ _ ht1, ht2, hjoin _ _ hd1, hd2, hcb, hat, hcm', ?_,
      hca, hua⟩
    · cases hp : castString (body.priority.orElse (.str "Medium")) with
      | none => simp [hp] at hc
      | some y => cases y with
        | none =>
          exfalso
          unfold JVal.orElse at hp
          split at hp
          · rename_i htr
            cases hb : body.priority <;> simp [hb, castString, JVal.truthy] at hp htr
          · simp [castString] at hp
        | some z =>
          simp only [hp, Option.join, Option.bind, Option.getD] at hpd
          simp at hpd
          rw [hpd]
    · rw [hsla, hd']

/-! ## The SLA deadline of a new ticket -/

/-- C1, evaluated where the hook departs from the stated table: for the priority
`"constructor"` the read `slaHours[this.priority]` finds the property every object inherits,
which is truthy, so `|| 8` does not apply; the product with `60 * 60 * 1000` is not a number and
the deadline is the invalid date at every clock reading `t`, not `t` plus the Medium offset of
eight hours. The hook of a new document with that priority leaves `slaDeadline` unset. -/
theorem hook_deadline_priority_constructor :
    "constructor" ∉ priorityEnum ∧
    hoursFor "constructor" = Looked.inherited ∧
    (∀ t : Time, deadlineAt (hoursFor "constructor") t = none) ∧
    (∀ t : Time, deadlineAt (hoursFor "constructor") t ≠ some (t + offsetMs "constructor")) ∧
    (∀ (clock : Nat → Time) (newId userId : ObjectId),
      (preValidate (newTicket newId userId
        { title := .str "a", description := .str "b", priority := .str "constructor" } clock)
        clock 2).slaDeadline = none) := by
  refine ⟨by decide, by decide, fun t => ?_, fun t => ?_, fun clock newId userId => ?_⟩
  · rw [hoursFor_of_inherited _ (by decide)]; rfl
  · rw [hoursFor_of_inherited _ (by decide)]; simp [deadlineAt]
  · have h : hoursFor "constructor" = Looked.inherited := by decide
    simp [preValidate, newTicket, JVal.orElse, JVal.truthy, castString, h, deadlineAt]

/-- C2, as stated, fails: with a clock that reads 2024-01-01T00:00:00.000Z when `createdAt`
takes its default and two milliseconds more when the hook computes the deadline, the ticket
created with priority Critical has `createdAt` 1704067200000 and `slaDeadline` 1704070800002,
which is not `createdAt` plus one hour. -/
theorem postTicket_deadline_not_from_createdAt :
    ∃ t : Ticket,
      (postTicket [] 7 1 (fun k => 1704067200000 + (k : Int))
        { title := .str "a", description := .str "b", priority := .str "Critical" }).2
        = .json t ∧
      t.priority = "Critical" ∧ t.createdAt = 1704067200000 ∧
      t.slaDeadline = 1704070800002 ∧
      t.slaDeadline ≠ t.createdAt + offsetMs t.priority := by
  refine ⟨{ _id := 1, title := "a", description := "b", status := "Open",
            priority := "Critical", createdBy := 7, assignedTo := none,
            slaDeadline := 1704070800002, comments := [], createdAt := 1704067200000,
            updatedAt := 1704067200003 }, by decide, rfl, rfl, rfl, by decide⟩

/-- C2, amended: every ticket the create route answers with is stored, its `slaDeadline` is
the clock reading the hook takes (the third reading of the request) plus the offset of its
priority, and its `createdAt` is the first reading of the request; the priority is Medium
when the request gives none. Hence `slaDeadline` is `createdAt` plus the offset whenever the
two readings coincide, and a Critical ticket whose hook reads 2024-01-01T00:00:00Z has the
deadline 2024-01-01T01:00:00Z. -/
theorem postTicket_slaDeadline (s : Store) (userId newId : ObjectId) (clock : Nat → Time)
    (body : CreateBody) (t : Ticket)
    (h : (postTicket s userId newId clock body).2 = .json t) :
    findById (postTicket s userId newId clock body).1 newId = some t ∧
    t.priority ∈ priorityEnum ∧
    t.slaDeadline = clock 2 + offsetMs t.priority ∧
    t.createdAt = clock 0 ∧
    (body.priority.truthy = false → t.priority = "Medium") ∧
    (clock 2 = clock 0 → t.slaDeadline = t.createdAt + offsetMs t.priority) ∧
    (t.priority = "Critical" → clock 2 = 1704067200000 → t.slaDeadline = 1704070800000) := by
  obtain ⟨heq, hv, hnone⟩ := postTicket_json h
  obtain ⟨hid, _, hpe, hpr, _, _, _, _, _, _, _, hsla, hca, _⟩ := preValidate_newTicket_ok hv
  refine ⟨?_, hpe, hsla, hca, ?_, ?_, ?_⟩
  · rw [heq]
    have := findById_append_new s t (hid ▸ hnone)
    rw [hid] at this
    exact this
  · intro hf
    simp only [JVal.orElse, hf, Bool.false_eq_true, if_false, castString, Option.some.injEq]
      at hpr
    exact hpr.symm
  · intro hc
    rw [hsla, hca, hc]
  · intro hp hc
    rw [hsla, hc, hp]
    decide

/-- C2, amended, at a Critical ticket whose request reads 2024-01-01T00:00:00Z throughout. -/
theorem postTicket_slaDeadline_witness :
    (postTicket [] 7 1 (fun _ => 1704067200000)
      { title := .str "a", description := .str "b", priority := .str "Critical" }).2
      = .json { _id := 1, title := "a", description := "b", status := "Open",
                priority := "Critical", createdBy := 7, assignedTo := none,
                slaDeadline := 1704070800000, comments := [], createdAt := 1704067200000,
                updatedAt := 1704067200000 } ∧
    (1704070800000 : Time) = 1704067200000 + offsetMs "Critical" :=
  ⟨by decide,
   (postTicket_slaDeadline [] 7 1 (fun _ => 1704067200000)
      { title := .str "a", description := .str "b", priority := .str "Critical" }
      { _id := 1, title := "a", description := "b", status := "Open",
        priority := "Critical", createdBy := 7, assignedTo := none,
        slaDeadline := 1704070800000, comments := [], createdAt := 1704067200000,
        updatedAt := 1704067200000 } (by decide)).2.2.1⟩

/-! ## The update route -/

theorem applySet_id (u : SetDoc) (t : Ticket) : (applySet u t)._id = t._id := rfl

theorem putTicket_eq (s : Store) (id : String) (body : UpdateBody) :
    putTicket s id body =
      match parseObjectId id with
      | none => (s, .notFound)
      | some oid => match findById s oid with
        | none => (s, .notFound)
        | some _ => match castUpdate (updateFields body) with
          | .error e => (s, byIdCatch e)
          | .ok u => (updateById s oid (applySet u),
              replyWith (findById (updateById s oid (applySet u)) oid)) := by
  unfold putTicket putTicketTry findByIdAndUpdate
  cases parseObjectId id with
  | none => rfl
  | some oid =>
    dsimp only
    cases findById s oid with
    | none => rfl
    | some t =>
      dsimp only
      cases castUpdate (updateFields body) <;> rfl

/-- C3: for every ticket stored under the id of an update request and every body of the
request, the ticket stored under that id afterwards has the `slaDeadline`, `createdBy`,
`createdAt` and `comments` it had before, whatever the body holds for `priority` and for the
other keys; a ticket sent back in the reply is that stored ticket; and the values the body
carries for `createdBy`, `slaDeadline`, `createdAt` and `comments` play no part: replacing them
by any other values gives the same collection and the same reply. -/
theorem putTicket_keeps_deadline_creator_comments (s : Store) (id : String) (oid : ObjectId)
    (t : Ticket) (body : UpdateBody)
    (hid : parseObjectId id = some oid) (ht : findById s oid = some t) :
    (∃ u : Ticket, findById (putTicket s id body).1 oid = some u ∧
      u.slaDeadline = t.slaDeadline ∧ u.createdBy = t.createdBy ∧
      u.createdAt = t.createdAt ∧ u.comments = t.comments ∧
      ∀ r : Ticket, (putTicket s id body).2 = .json r → r = u) ∧
    ∀ v1 v2 v3 v4 : JVal,
      putTicket s id { body with createdBy := v1, slaDeadline := v2, createdAt := v3,
                                 comments := v4 } = putTicket s id body := by
  constructor
  · rw [putTicket_eq, hid]
    simp only [ht]
    cases castUpdate (updateFields body) with
    | error e =>
      refine ⟨t, ht, rfl, rfl, rfl, rfl, ?_⟩
      intro r hr
      cases e <;> simp [byIdCatch] at hr
    | ok u =>
      have hf := findById_updateById_same s oid (applySet u) (fun x hx => hx)
      rw [ht] at hf
      refine ⟨applySet u t, hf, rfl, rfl, rfl, rfl, ?_⟩
      intro r hr
      simp only [hf, Option.map_some', replyWith, Response.json.injEq] at hr
      exact hr.symm
  · intro v1 v2 v3 v4
    rfl

/-- C3 at a stored ticket whose update asks for the priority Low and carries a `slaDeadline`
and a `createdBy` of its own. -/
theorem putTicket_keeps_deadline_creator_comments_witness :
    ∃ u : Ticket,
      findById (putTicket
        [{ _id := 1, title := "a", description := "b", status := "Open",
           priority := "Critical", createdBy := 7, assignedTo := none,
           slaDeadline := 3600000, comments := [], createdAt := 0, updatedAt := 0 }]
        "000000000000000000000001"
        { title := .undefined, description := .undefined, status := .undefined,
          priority := .str "Low", assignedTo := .undefined, createdBy := .num 9,
          slaDeadline := .num 5, createdAt := .undefined, comments := .array "x,y" }).1 1
        = some u ∧
      u.slaDeadline = 3600000 ∧ u.createdBy = 7 :=
  have h := (putTicket_keeps_deadline_creator_comments
    [{ _id := 1, title := "a", description := "b", status := "Open",
       priority := "Critical", createdBy := 7, assignedTo := none,
       slaDeadline := 3600000, comments := [], createdAt := 0, updatedAt := 0 }]
    "000000000000000000000001" 1
    { _id := 1, title := "a", description := "b", status := "Open",
      priority := "Critical", createdBy := 7, assignedTo := none,
      slaDeadline := 3600000, comments := [], createdAt := 0, updatedAt := 0 }
    { title := .undefined, description := .undefined, status := .undefined,
      priority := .str "Low", assignedTo := .undefined, createdBy := .num 9,
      slaDeadline := .num 5, createdAt := .undefined, comments := .array "x,y" }
    (by decide) (by decide)).1
  match h with
  | ⟨u, h1, h2, h3, _⟩ => ⟨u, h1, h2, h3⟩

/-- C4: for every ticket `x` stored under the id of the request, the update with the body
`{ status: "Resolved" }` answers with a ticket, the one stored under that id afterwards, whose
status is Resolved and whose title, description, priority, createdBy and comments are those
of `x`; putting back the status and `updatedAt` of `x` gives `x` itself, so no other field
differs. -/
theorem putTicket_resolved (s : Store) (id : String) (oid : ObjectId) (x : Ticket)
    (hid : parseObjectId id = some oid) (hx : findById s oid = some x) :
    ∃ u : Ticket, (putTicket s id resolvedBody).2 = .json u ∧
      findById (putTicket s id resolvedBody).1 oid = some u ∧
      u.status = "Resolved" ∧ u.title = x.title ∧ u.description = x.description ∧
      u.priority = x.priority ∧ u.createdBy = x.createdBy ∧ u.comments = x.comments ∧
      { u with status := x.status, updatedAt := x.updatedAt } = x := by
  have hc : castUpdate (updateFields resolvedBody) =
      .ok { title := none, description := none, status := some "Resolved", priority := none,
            assignedTo := none } := rfl
  rw [putTicket_eq, hid]
  simp only [hx, hc]
  have hf := findById_updateById_same s oid
    (applySet { title := none, description := none, status := some "Resolved",
                priority := none, assignedTo := none }) (fun x hx => hx)
  rw [hx] at hf
  exact ⟨_, by rw [hf]; rfl, hf, rfl, rfl, rfl, rfl, rfl, rfl, rfl⟩

/-- C4 at a stored ticket with one comment. -/
theorem putTicket_resolved_witness :
    ∃ u : Ticket,
      (putTicket
        [{ _id := 1, title := "a", description := "b", status := "Open",
           priority := "High", createdBy := 7, assignedTo := some 8,
           slaDeadline := 14400000, comments :=
             [{ _id := 2, user := 7, userName := some "Al", text := "hi", createdAt := 5 }],
           createdAt := 0, updatedAt := 5 }]
        "000000000000000000000001" resolvedBody).2 = .json u ∧
      u.status = "Resolved" ∧ u.title = "a" :=
  match putTicket_resolved
    [{ _id := 1, title := "a", description := "b", status := "Open",
       priority := "High", createdBy := 7, assignedTo := some 8,
       slaDeadline := 14400000, comments :=
         [{ _id := 2, user := 7, userName := some "Al", text := "hi", createdAt := 5 }],
       createdAt := 0, updatedAt := 5 }]
    "000000000000000000000001" 1
    { _id := 1, title := "a", description := "b", status := "Open",
      priority := "High", createdBy := 7, assignedTo := some 8,
      slaDeadline := 14400000, comments :=
        [{ _id := 2, user := 7, userName := some "Al", text := "hi", createdAt := 5 }],
      createdAt := 0, updatedAt := 5 }
    (by decide) (by decide) with
  | ⟨u, h1, _, h3, h4, _⟩ => ⟨u, h1, h3, h4⟩

/-! ## The SLA classification -/

theorem hoursLeft_neg_iff (x : Int) : ((x : ℚ) / (1000 * 60 * 60) < 0) ↔ x < 0 := by
  rw [div_lt_iff₀ (by norm_num)]
  simp

theorem hoursLeft_lt_one_iff (x : Int) : ((x : ℚ) / (1000 * 60 * 60) < 1) ↔ x < 3600000 := by
  rw [div_lt_iff₀ (by norm_num)]
  norm_num
  exact_mod_cast Iff.rfl

/-- C5: for every ticket and every time `now`, the status `getSLAStatus` gives is Met when
the status of the ticket is Resolved or Closed, whatever the deadline; otherwise Breached when
`now` is after the deadline; otherwise Critical when the time left is below one hour; otherwise
On Track. So a ticket that is neither Resolved nor Closed is Critical at its deadline and On
Track exactly one hour before it. -/
theorem getSLAStatus_status (ticket : Ticket) (now : Time) :
    (getSLAStatus ticket now).status =
      (if ticket.status = "Resolved" ∨ ticket.status = "Closed" then "Met"
       else if now > ticket.slaDeadline then "Breached"
       else if ticket.slaDeadline - now < 3600000 then "Critical"
       else "On Track") ∧
    (getSLAStatus ticket ticket.slaDeadline).status =
      (if ticket.status = "Resolved" ∨ ticket.status = "Closed" then "Met" else "Critical") ∧
    (getSLAStatus ticket (ticket.slaDeadline - 3600000)).status =
      (if ticket.status = "Resolved" ∨ ticket.status = "Closed" then "Met"
       else "On Track") := by
  have key : ∀ n : Time, (getSLAStatus ticket n).status =
      (if ticket.status = "Resolved" ∨ ticket.status = "Closed" then "Met"
       else if n > ticket.slaDeadline then "Breached"
       else if ticket.slaDeadline - n < 3600000 then "Critical"
       else "On Track") := by
    intro n
    unfold getSLAStatus
    simp only [hoursLeft_neg_iff, hoursLeft_lt_one_iff]
    by_cases h1 : ticket.status = "Resolved" ∨ ticket.status = "Closed"
    · simp only [h1, if_true]
    · simp only [h1, if_false]
      by_cases h2 : ticket.slaDeadline - n < 0
      · have h2' : n > ticket.slaDeadline := sub_neg.mp h2
        simp only [h2, h2', if_true]
      · have h2' : ¬ n > ticket.slaDeadline := fun h => h2 (sub_neg.mpr h)
        simp only [h2, h2', if_false]
        by_cases h3 : ticket.slaDeadline - n < 3600000
        · simp only [h3, if_true]
        · simp only [h3, if_false]
  refine ⟨key now, ?_, ?_⟩
  · rw [key]
    by_cases h1 : ticket.status = "Resolved" ∨ ticket.status = "Closed"
    · simp only [h1, if_true]
    · simp [h1]
  · rw [key]
    by_cases h1 : ticket.status = "Resolved" ∨ ticket.status = "Closed"
    · simp only [h1, if_true]
    · simp [h1]

/-! ## The comment route -/

theorem validate_error {doc : Doc} {e : Err} (h : validate doc = .error e) :
    e = .validation := by
  unfold validate at h
  split at h
  · injection h with h; exact h.symm
  · split at h
    · split at h
      · exact absurd h (by simp)
      · injection h with h; exact h.symm
    · injection h with h; exact h.symm

theorem validateComment_loadComment (c : Comment) (hc : c.text ≠ "") :
    validateComment (loadComment c) = some c := by
  simp [validateComment, loadComment, requiredString, hc]

theorem validateComment_loadComment_some {c r : Comment}
    (h : validateComment (loadComment c) = some r) : r = c := by
  unfold validateComment loadComment requiredString at h
  dsimp only at h
  split at h
  · rename_i text ht
    split at ht
    · exact absurd ht (by simp)
    · injection ht with ht
      injection h with h
      rw [← h, ← ht]
  · exact absurd h (by simp)

theorem validateComments_cons (c : CommentDoc) (cs : List CommentDoc) :
    validateComments (c :: cs) =
      match validateComment c, validateComments cs with
      | some c, some cs => some (c :: cs)
      | _, _ => none := by
  rw [validateComments]

theorem validateComments_load_append_some {cs : List Comment} {d : CommentDoc}
    {r : List Comment} (h : validateComments (cs.map loadComment ++ [d]) = some r) :
    ∃ c, validateComment d = some c ∧ r = cs ++ [c] := by
  induction cs generalizing r with
  | nil =>
    simp only [List.map_nil, List.nil_append, validateComments_cons] at h
    cases hd : validateComment d with
    | none => simp [hd] at h
    | some c =>
      simp only [hd, validateComments, Option.some.injEq] at h
      exact ⟨c, rfl, h.symm⟩
  | cons a cs ih =>
    simp only [List.map_cons, List.cons_append, validateComments_cons] at h
    cases ha : validateComment (loadComment a) with
    | none => simp [ha] at h
    | some a' =>
      cases hr : validateComments (cs.map loadComment ++ [d]) with
      | none => simp [ha, hr] at h
      | some r' =>
        simp only [ha, hr, Option.some.injEq] at h
        obtain ⟨c, hc, hr'⟩ := ih hr
        refine ⟨c, hc, ?_⟩
        rw [← h, validateComment_loadComment_some ha, hr']
        rfl

theorem validateComments_load_append {cs : List Comment} {d : CommentDoc} {c : Comment}
    (hcs : ∀ x ∈ cs, x.text ≠ "") (hd : validateComment d = some c) :
    validateComments (cs.map loadComment ++ [d]) = some (cs ++ [c]) := by
  induction cs with
  | nil => simp [validateComments, hd]
  | cons a cs ih =>
    have ha := validateComment_loadComment a (hcs a (List.mem_cons_self a cs))
    have ih' := ih (fun x hx => hcs x (List.mem_cons_of_mem a hx))
    simp only [List.map_cons, List.cons_append, validateComments_cons, ha, ih']

theorem postComment_eq (s : Store) (id : String) (userId : ObjectId) (user : Option UserDoc)
    (commentId : ObjectId) (clock : Nat → Time) (text : JVal) :
    postComment s id userId user commentId clock text =
      match parseObjectId id with
      | none => (s, .notFound)
      | some oid => match findById s oid with
        | none => (s, .notFound)
        | some ticket => match user with
          | none => (s, .serverError)
          | some u =>
            match validate (preValidate
                (pushComment (load ticket) commentId userId u.name text clock 0) clock 1) with
            | .error _ => (s, .serverError)
            | .ok t => (updateById s ticket._id (fun _ => t),
                replyWith (findById (updateById s ticket._id (fun _ => t)) oid)) := by
  unfold postComment postCommentTry saveLoaded
  cases parseObjectId id with
  | none => rfl
  | some oid =>
    dsimp only
    cases findById s oid with
    | none => rfl
    | some ticket =>
      dsimp only
      cases user with
      | none => rfl
      | some u =>
        dsimp only
        cases hv : validate (preValidate
            (pushComment (load ticket) commentId userId u.name text clock 0) clock 1) with
        | error e => rw [validate_error hv]; rfl
        | ok t => rfl

theorem preValidate_pushComment_load (t : Ticket) (commentId userId : ObjectId)
    (userName : Option String) (text : JVal) (clock : Nat → Time) :
    preValidate (pushComment (load t) commentId userId userName text clock 0) clock 1 =
      { pushComment (load t) commentId userId userName text clock 0 with
        updatedAt := clock 1 } := by
  simp [preValidate, pushComment, load]

theorem validate_pushComment_ok {t u : Ticket} {commentId userId : ObjectId}
    {userName : Option String} {text : JVal} {clock : Nat → Time}
    (h : validate (preValidate
      (pushComment (load t) commentId userId userName text clock 0) clock 1) = .ok u) :
    ∃ txt : String, castString text = some (some txt) ∧ txt ≠ "" ∧
      u = { t with
            comments := t.comments ++ [Comment.mk commentId userId userName txt (clock 0)],
            updatedAt := clock 1 } := by
  rw [preValidate_pushComment_load] at h
  obtain ⟨hc, ht, hd, hs, hcm, _, _, hid, hst, hpr, hcb, hat, hca, hua⟩ := validate_ok h
  simp only [pushComment, load] at hc ht hd hs hcm hid hst hpr hcb hat hca hua
  obtain ⟨c, hvc, hcs⟩ := validateComments_load_append_some hcm
  simp only [validateComment] at hvc
  cases hreq : requiredString (castString text).join with
  | none => rw [hreq] at hvc; exact absurd hvc (by simp)
  | some txt =>
    rw [hreq] at hvc
    simp only [Option.some.injEq] at hvc
    obtain ⟨hj, hne⟩ := requiredString_some hreq
    have hcast : castString text = some (some txt) := by
      cases hct : castString text with
      | none => simp [hct] at hj
      | some y => cases y with
        | none => simp [hct] at hj
        | some z => simp [hct] at hj; rw [hj]
    refine ⟨txt, hcast, hne, ?_⟩
    obtain ⟨ht1, _⟩ := requiredString_some ht
    obtain ⟨hd1, _⟩ := requiredString_some hd
    simp only [Option.some.injEq] at ht1 hd1 hs
    cases u
    cases t
    simp only [Ticket.mk.injEq] at *
    subst hvc
    simp_all

theorem validate_pushComment (t : Ticket) (commentId userId : ObjectId)
    (userName : Option String) (txt : String) (clock : Nat → Time)
    (hv : ValidTicket t) (htxt : txt ≠ "") :
    validate (preValidate
      (pushComment (load t) commentId userId userName (.str txt) clock 0) clock 1) =
      .ok { t with
            comments := t.comments ++ [Comment.mk commentId userId userName txt (clock 0)],
            updatedAt := clock 1 } := by
  obtain ⟨h1, h2, h3, h4, h5⟩ := hv
  rw [preValidate_pushComment_load]
  have hc : validateComment
      (CommentDoc.mk commentId userId userName (castString (.str txt)).join (clock 0)) =
      some (Comment.mk commentId userId userName txt (clock 0)) := by
    simp [validateComment, castString, requiredString, htxt]
  have hcs := validateComments_load_append h5 hc
  simp only [castString] at hcs
  unfold validate
  simp only [pushComment, load, castString, Option.isNone_some, Bool.or_false,
    Bool.false_eq_true, if_false, requiredString, h1, h2, hcs, h3, h4, and_self, if_true]

theorem validateComment_loadComment_text {c r : Comment}
    (h : validateComment (loadComment c) = some r) : c.text ≠ "" := by
  unfold validateComment loadComment requiredString at h
  dsimp only at h
  split at h
  · rename_i text ht
    split at ht
    · exact absurd ht (by simp)
    · rename_i hne
      exact hne
  · exact absurd h (by simp)

theorem validateComments_load_texts {cs : List Comment} {d : CommentDoc}
    {r : List Comment} (h : validateComments (cs.map loadComment ++ [d]) = some r) :
    ∀ c ∈ cs, c.text ≠ "" := by
  induction cs generalizing r with
  | nil => intro c hc; exact absurd hc (List.not_mem_nil c)
  | cons a cs ih =>
    simp only [List.map_cons, List.cons_append, validateComments_cons] at h
    cases ha : validateComment (loadComment a) with
    | none => simp [ha] at h
    | some a2 =>
      cases hr : validateComments (cs.map loadComment ++ [d]) with
      | none => simp [ha, hr] at h
      | some r2 =>
        intro c hc
        rcases List.mem_cons.mp hc with hc | hc
        · rw [hc]; exact validateComment_loadComment_text ha
        · exact ih hr c hc

theorem validate_pushComment_valid {t u : Ticket} {commentId userId : ObjectId}
    {userName : Option String} {text : JVal} {clock : Nat → Time}
    (h : validate (preValidate
      (pushComment (load t) commentId userId userName text clock 0) clock 1) = .ok u) :
    ValidTicket t := by
  rw [preValidate_pushComment_load] at h
  obtain ⟨_, ht, hd, _, hcm, hst, hpr, _⟩ := validate_ok h
  simp only [pushComment, load] at ht hd hcm hst hpr
  obtain ⟨ht1, ht2⟩ := requiredString_some ht
  obtain ⟨hd1, hd2⟩ := requiredString_some hd
  simp only [Option.some.injEq] at ht1 hd1
  exact ⟨ht1 ▸ ht2, hd1 ▸ hd2, hst, hpr, validateComments_load_texts hcm⟩

/-- C6, as stated, fails: a ticket is created and then updated with the status `"banana"`,
which the update route stores; the comment request that follows, by a user that exists and
with the non-empty text `"hi"`, is refused by the validation `save()` runs on the document:
the route answers with status 500 and the ticket keeps its comments, here none, instead of
getting the new one. -/
theorem postComment_refused_on_invalid_ticket :
    serveAll []
      [Request.create 7 1 (fun k => (k : Int))
         { title := .str "a", description := .str "b", priority := .undefined },
       Request.update "000000000000000000000001"
         { title := .undefined, description := .undefined, status := .str "banana",
           priority := .undefined, assignedTo := .undefined, createdBy := .undefined,
           slaDeadline := .undefined, createdAt := .undefined, comments := .undefined }]
      = [{ _id := 1, title := "a", description := "b", status := "banana",
           priority := "Medium", createdBy := 7, assignedTo := none,
           slaDeadline := 28800002, comments := [], createdAt := 0, updatedAt := 3 }] ∧
    postComment
      [{ _id := 1, title := "a", description := "b", status := "banana",
         priority := "Medium", createdBy := 7, assignedTo := none,
         slaDeadline := 28800002, comments := [], createdAt := 0, updatedAt := 3 }]
      "000000000000000000000001" 7 (some { name := some "Al" }) 2 (fun _ => 1000)
      (.str "hi")
      = ([{ _id := 1, title := "a", description := "b", status := "banana",
            priority := "Medium", createdBy := 7, assignedTo := none,
            slaDeadline := 28800002, comments := [], createdAt := 0, updatedAt := 3 }],
         .serverError) := by
  refine ⟨by decide, by decide⟩

/-- C6, amended: for every ticket `t` stored under the id of a comment request, (1) when
`t` satisfies the schemas (its title and description are not empty, its status and priority
are in their enums, none of its comments has an empty text), the acting user exists and the
text is a non-empty string, the route answers with the stored ticket whose comments are
exactly those of `t` followed by one comment that carries the id and the name of the acting
user and the text; (2) when `t` does not satisfy the schemas, every comment request for it
is answered by status 500 and leaves the collection as it was; and (3) whatever the ticket,
the acting user and the text, either the request fails and the collection is left as it was,
or the comments of the stored ticket are those of `t` followed by one comment: no earlier
comment is moved, dropped or changed. -/
theorem postComment_appends (s : Store) (id : String) (oid : ObjectId) (t : Ticket)
    (userId commentId : ObjectId) (clock : Nat → Time)
    (hid : parseObjectId id = some oid) (ht : findById s oid = some t) :
    (∀ (user : Option UserDoc) (text : JVal),
      postComment s id userId user commentId clock text = (s, .serverError) ∨
      ∃ (w : Ticket) (c : Comment),
        (postComment s id userId user commentId clock text).2 = .json w ∧
        findById (postComment s id userId user commentId clock text).1 oid = some w ∧
        w.comments = t.comments ++ [c] ∧ c.user = userId ∧
        user.map UserDoc.name = some c.userName ∧
        castString text = some (some c.text) ∧ c.text ≠ "") ∧
    (∀ (userName : Option String) (txt : String), ValidTicket t → txt ≠ "" →
      ∃ u : Ticket,
        (postComment s id userId (some { name := userName }) commentId clock (.str txt)).2
          = .json u ∧
        findById (postComment s id userId (some { name := userName }) commentId clock
          (.str txt)).1 oid = some u ∧
        u.comments = t.comments ++ [Comment.mk commentId userId userName txt (clock 0)]) ∧
    (¬ ValidTicket t → ∀ (user : Option UserDoc) (text : JVal),
      postComment s id userId user commentId clock text = (s, .serverError)) := by
  have htid : t._id = oid := findById_some_id ht
  subst htid
  refine ⟨?_, ?_, ?_⟩
  · intro user text
    rw [postComment_eq, hid]
    simp only [ht]
    cases user with
    | none => exact Or.inl rfl
    | some usr =>
      simp only
      cases hv : validate (preValidate
          (pushComment (load t) commentId userId usr.name text clock 0) clock 1) with
      | error e => exact Or.inl rfl
      | ok u =>
        simp only
        obtain ⟨txt, hcast, hne, hu⟩ := validate_pushComment_ok hv
        have hf := findById_updateById_same s t._id (fun _ => u)
          (fun _ _ => by rw [hu])
        rw [ht] at hf
        refine Or.inr ⟨u, Comment.mk commentId userId usr.name txt (clock 0), ?_, hf, ?_,
          rfl, rfl, hcast, hne⟩
        · rw [hf]; rfl
        · rw [hu]
  · intro userName txt hvalid htxt
    have hv := validate_pushComment t commentId userId userName txt clock hvalid htxt
    rw [postComment_eq, hid]
    simp only [ht, hv]
    have hf := findById_updateById_same s t._id
      (fun _ => ({ t with
        comments := t.comments ++ [Comment.mk commentId userId userName txt (clock 0)],
        updatedAt := clock 1 } : Ticket))
      (fun _ _ => rfl)
    rw [ht] at hf
    exact ⟨_, by rw [hf]; rfl, hf, rfl⟩
  · intro hinvalid user text
    rw [postComment_eq, hid]
    simp only [ht]
    cases user with
    | none => rfl
    | some usr =>
      simp only
      cases hv : validate (preValidate
          (pushComment (load t) commentId userId usr.name text clock 0) clock 1) with
      | error e => rfl
      | ok u => exact absurd (validate_pushComment_valid hv) hinvalid

/-- C6, amended, at a ticket that satisfies the schemas and has the comments `[c1, c2]`:
after the append of `c3` the stored comments are `[c1, c2, c3]`. -/
theorem postComment_appends_witness :
    ∃ u : Ticket,
      findById (postComment
        [{ _id := 1, title := "a", description := "b", status := "Open",
           priority := "High", createdBy := 7, assignedTo := none,
           slaDeadline := 14400000,
           comments := [Comment.mk 2 7 (some "Al") "one" 5, Comment.mk 3 8 (some "Bo") "two" 6],
           createdAt := 0, updatedAt := 6 }]
        "000000000000000000000001" 7 (some { name := some "Al" }) 4 (fun _ => 9)
        (.str "three")).1 1 = some u ∧
      u.comments = [Comment.mk 2 7 (some "Al") "one" 5, Comment.mk 3 8 (some "Bo") "two" 6] ++
        [Comment.mk 4 7 (some "Al") "three" 9] :=
  match (postComment_appends
    [{ _id := 1, title := "a", description := "b", status := "Open",
       priority := "High", createdBy := 7, assignedTo := none,
       slaDeadline := 14400000,
       comments := [Comment.mk 2 7 (some "Al") "one" 5, Comment.mk 3 8 (some "Bo") "two" 6],
       createdAt := 0, updatedAt := 6 }]
    "000000000000000000000001" 1
    { _id := 1, title := "a", description := "b", status := "Open",
      priority := "High", createdBy := 7, assignedTo := none,
      slaDeadline := 14400000,
      comments := [Comment.mk 2 7 (some "Al") "one" 5, Comment.mk 3 8 (some "Bo") "two" 6],
      createdAt := 0, updatedAt := 6 }
    7 4 (fun _ => 9) (by decide) (by decide)).2.1 (some "Al") "three" (by decide)
    (by decide) with
  | ⟨u, _, h2, h3⟩ => ⟨u, h2, h3⟩

/-- C8, as stated, fails: the reply to a comment request with an empty text is not an
outcome of its own. Inside the route the save throws a validation error, while a request with
the text `"hi"` by a user that does not exist throws a `TypeError`; the `catch` block answers
both with status 500 and `'Server error'`, which is also its answer to a storage error. -/
theorem postComment_validation_reply_is_generic :
    postCommentTry
      [{ _id := 1, title := "a", description := "b", status := "Open", priority := "High",
         createdBy := 7, assignedTo := none, slaDeadline := 14400000,
         comments := [Comment.mk 2 7 (some "Al") "one" 5], createdAt := 0, updatedAt := 5 }]
      "000000000000000000000001" 7 (some { name := some "Al" }) 4 (fun _ => 9) (.str "")
      = .error .validation ∧
    postCommentTry
      [{ _id := 1, title := "a", description := "b", status := "Open", priority := "High",
         createdBy := 7, assignedTo := none, slaDeadline := 14400000,
         comments := [Comment.mk 2 7 (some "Al") "one" 5], createdAt := 0, updatedAt := 5 }]
      "000000000000000000000001" 7 none 4 (fun _ => 9) (.str "hi")
      = .error .typeError ∧
    (postComment
      [{ _id := 1, title := "a", description := "b", status := "Open", priority := "High",
         createdBy := 7, assignedTo := none, slaDeadline := 14400000,
         comments := [Comment.mk 2 7 (some "Al") "one" 5], createdAt := 0, updatedAt := 5 }]
      "000000000000000000000001" 7 (some { name := some "Al" }) 4 (fun _ => 9) (.str "")).2
    = (postComment
      [{ _id := 1, title := "a", description := "b", status := "Open", priority := "High",
         createdBy := 7, assignedTo := none, slaDeadline := 14400000,
         comments := [Comment.mk 2 7 (some "Al") "one" 5], createdAt := 0, updatedAt := 5 }]
      "000000000000000000000001" 7 none 4 (fun _ => 9) (.str "hi")).2 ∧
    (postComment
      [{ _id := 1, title := "a", description := "b", status := "Open", priority := "High",
         createdBy := 7, assignedTo := none, slaDeadline := 14400000,
         comments := [Comment.mk 2 7 (some "Al") "one" 5], createdAt := 0, updatedAt := 5 }]
      "000000000000000000000001" 7 (some { name := some "Al" }) 4 (fun _ => 9) (.str "")).2
    = byIdCatch .storage := by
  refine ⟨rfl, rfl, by decide, by decide⟩

/-- C8, amended: for every ticket stored under the id of a comment request whose text is
the empty string (or is missing), the save of the document throws a validation error whenever
the acting user exists; for every acting user the route answers with status 500 and
`'Server error'`, which is also its answer to a storage error, and the collection is left as
it was: the ticket stored under the id is the same, with the same comments and the same other
fields. -/
theorem postComment_empty_text (s : Store) (id : String) (oid : ObjectId) (t : Ticket)
    (userId commentId : ObjectId) (clock : Nat → Time) (text : JVal)
    (hid : parseObjectId id = some oid) (ht : findById s oid = some t)
    (htext : text = .str "" ∨ text = .undefined ∨ text = .null) :
    (∀ usr : UserDoc,
      postCommentTry s id userId (some usr) commentId clock text = .error .validation) ∧
    (∀ user : Option UserDoc,
      postComment s id userId user commentId clock text = (s, .serverError) ∧
      (postComment s id userId user commentId clock text).2 = byIdCatch .storage ∧
      findById (postComment s id userId user commentId clock text).1 oid = some t) := by
  have hfail : ∀ usr : UserDoc, validate (preValidate
      (pushComment (load t) commentId userId usr.name text clock 0) clock 1)
      = .error .validation := by
    intro usr
    cases hv : validate (preValidate
        (pushComment (load t) commentId userId usr.name text clock 0) clock 1) with
    | error e => rw [validate_error hv]
    | ok u =>
      exfalso
      obtain ⟨txt, hcast, hne, _⟩ := validate_pushComment_ok hv
      rcases htext with h | h | h <;> rw [h] at hcast <;> simp [castString] at hcast
      exact hne hcast.symm
  constructor
  · intro usr
    unfold postCommentTry saveLoaded
    rw [hid]
    simp only [ht, hfail usr]
  · intro user
    have h1 : postComment s id userId user commentId clock text = (s, .serverError) := by
      rw [postComment_eq, hid]
      simp only [ht]
      cases user with
      | none => rfl
      | some usr => simp only [hfail usr]
    exact ⟨h1, by rw [h1]; rfl, by rw [h1]; exact ht⟩

/-- C8, amended, at a stored ticket with one comment. -/
theorem postComment_empty_text_witness :
    postComment
      [{ _id := 1, title := "a", description := "b", status := "Open",
         priority := "High", createdBy := 7, assignedTo := none, slaDeadline := 14400000,
         comments := [Comment.mk 2 7 (some "Al") "one" 5], createdAt := 0, updatedAt := 5 }]
      "000000000000000000000001" 7 (some { name := some "Al" }) 4 (fun _ => 9) (.str "")
    = ([{ _id := 1, title := "a", description := "b", status := "Open",
          priority := "High", createdBy := 7, assignedTo := none, slaDeadline := 14400000,
          comments := [Comment.mk 2 7 (some "Al") "one" 5], createdAt := 0, updatedAt := 5 }],
       .serverError) :=
  ((postComment_empty_text
    [{ _id := 1, title := "a", description := "b", status := "Open",
       priority := "High", createdBy := 7, assignedTo := none, slaDeadline := 14400000,
       comments := [Comment.mk 2 7 (some "Al") "one" 5], createdAt := 0, updatedAt := 5 }]
    "000000000000000000000001" 1
    { _id := 1, title := "a", description := "b", status := "Open",
      priority := "High", createdBy := 7, assignedTo := none, slaDeadline := 14400000,
      comments := [Comment.mk 2 7 (some "Al") "one" 5], createdAt := 0, updatedAt := 5 }
    7 4 (fun _ => 9) (.str "") (by decide) (by decide) (Or.inl rfl)).2
    (some { name := some "Al" })).1

/-! ## Refused creations -/

theorem validate_newTicket_blank (userId newId : ObjectId) (clock : Nat → Time)
    (body : CreateBody) (hb : body.title.blank ∨ body.description.blank) :
    validate (preValidate (newTicket newId userId body clock) clock 2) = .error .validation := by
  cases hv : validate (preValidate (newTicket newId userId body clock) clock 2) with
  | error e => rw [validate_error hv]
  | ok t =>
    exfalso
    obtain ⟨_, _, _, _, ht, htne, hd, hdne, _⟩ := preValidate_newTicket_ok hv
    rcases hb with h | h
    · rcases h with h | h | h <;> rw [h] at ht <;> simp [castString] at ht
      exact htne ht.symm
    · rcases h with h | h | h <;> rw [h] at hd <;> simp [castString] at hd
      exact hdne hd.symm

/-- C7, as stated, fails: the reply to a create request with an empty title is the reply
the same route gives when the insertion is refused by the persistence layer (here: the `_id`
is taken). Inside the route the two errors differ, a validation error and a storage error;
the `catch` block answers both with status 500 and `'Server error'`. -/
theorem postTicket_validation_reply_is_storage_reply :
    postTicketTry [] 7 1 (fun _ => 0)
      { title := .str "", description := .str "b", priority := .undefined }
      = .error .validation ∧
    postTicketTry
      [{ _id := 1, title := "x", description := "y", status := "Open", priority := "Medium",
         createdBy := 7, assignedTo := none, slaDeadline := 28800000, comments := [],
         createdAt := 0, updatedAt := 0 }] 7 1 (fun _ => 0)
      { title := .str "a", description := .str "b", priority := .undefined }
      = .error .storage ∧
    (postTicket [] 7 1 (fun _ => 0)
      { title := .str "", description := .str "b", priority := .undefined }).2
    = (postTicket
      [{ _id := 1, title := "x", description := "y", status := "Open", priority := "Medium",
         createdBy := 7, assignedTo := none, slaDeadline := 28800000, comments := [],
         createdAt := 0, updatedAt := 0 }] 7 1 (fun _ => 0)
      { title := .str "a", description := .str "b", priority := .undefined }).2 ∧
    (postTicket [] 7 1 (fun _ => 0)
      { title := .str "", description := .str "b", priority := .undefined }).2
    = plainCatch .storage := by
  refine ⟨rfl, rfl, by decide, by decide⟩

/-- C7, amended: for every collection and every create request whose title or description is
the empty string or is missing, the save throws a validation error, the route answers with
status 500 and `'Server error'`, which is also its answer to a storage failure, and nothing
is stored: the collection is the same, and so is the number of tickets the list route
returns. -/
theorem postTicket_blank_not_stored (s : Store) (userId newId : ObjectId)
    (clock : Nat → Time) (body : CreateBody)
    (hb : body.title.blank ∨ body.description.blank) :
    postTicketTry s userId newId clock body = .error .validation ∧
    postTicket s userId newId clock body = (s, .serverError) ∧
    (postTicket s userId newId clock body).2 = plainCatch .storage ∧
    (findSorted (postTicket s userId newId clock body).1).length = (findSorted s).length := by
  have hv := validate_newTicket_blank userId newId clock body hb
  have h1 : postTicket s userId newId clock body = (s, .serverError) := by
    rw [postTicket_eq, hv]
  refine ⟨?_, h1, by rw [h1]; rfl, by rw [h1]⟩
  unfold postTicketTry saveNew
  rw [hv]

/-- C7, amended, at a collection of one ticket and a request without a description. -/
theorem postTicket_blank_not_stored_witness :
    postTicket
      [{ _id := 1, title := "x", description := "y", status := "Open", priority := "Medium",
         createdBy := 7, assignedTo := none, slaDeadline := 28800000, comments := [],
         createdAt := 0, updatedAt := 0 }] 7 2 (fun _ => 0)
      { title := .str "a", description := .undefined, priority := .str "High" }
    = ([{ _id := 1, title := "x", description := "y", status := "Open", priority := "Medium",
          createdBy := 7, assignedTo := none, slaDeadline := 28800000, comments := [],
          createdAt := 0, updatedAt := 0 }], .serverError) :=
  (postTicket_blank_not_stored
    [{ _id := 1, title := "x", description := "y", status := "Open", priority := "Medium",
       createdBy := 7, assignedTo := none, slaDeadline := 28800000, comments := [],
       createdAt := 0, updatedAt := 0 }] 7 2 (fun _ => 0)
    { title := .str "a", description := .undefined, priority := .str "High" }
    (by decide)).2.1

/-! ## Deletion -/

theorem deleteTicket_eq (s : Store) (id : String) :
    deleteTicket s id =
      match parseObjectId id with
      | none => (s, .notFound)
      | some oid => match findById s oid with
        | none => (s, .notFound)
        | some ticket => (removeById s ticket._id, .removed) := by
  unfold deleteTicket deleteTicketTry
  cases parseObjectId id with
  | none => rfl
  | some oid =>
    dsimp only
    cases findById s oid <;> rfl

/-- C9: for every collection, a delete request whose id names no stored ticket (the id is
not an ObjectId, or no ticket is stored under it) is answered by 404 and leaves the collection
as it was; and a delete request whose id names a stored ticket `t` is answered by
`'Ticket removed'`, after which the read route, which answered with `t` for every id string
that names it, answers 404 for each of them, still answers with the same ticket for every id
that names another stored ticket, and answers for every other id string what it answered
before. -/
theorem deleteTicket_notFound_and_removed (s : Store) (id : String) :
    ((∀ oid, parseObjectId id = some oid → findById s oid = none) →
      deleteTicket s id = (s, .notFound)) ∧
    (∀ (oid : ObjectId) (t : Ticket), parseObjectId id = some oid → findById s oid = some t →
      (deleteTicket s id).2 = .removed ∧
      getTicket (deleteTicket s id).1 id = .notFound ∧
      (∀ id1 : String, parseObjectId id1 = some oid →
        getTicket s id1 = .json t ∧ getTicket (deleteTicket s id).1 id1 = .notFound) ∧
      (∀ (id2 : String) (oid2 : ObjectId) (t2 : Ticket), parseObjectId id2 = some oid2 →
        oid2 ≠ oid → findById s oid2 = some t2 →
        getTicket s id2 = .json t2 ∧ getTicket (deleteTicket s id).1 id2 = .json t2) ∧
      ∀ id2 : String, parseObjectId id2 ≠ some oid →
        getTicket (deleteTicket s id).1 id2 = getTicket s id2) := by
  constructor
  · intro h
    rw [deleteTicket_eq]
    cases hp : parseObjectId id with
    | none => rfl
    | some oid => simp only [h oid hp]
  · intro oid t hp ht
    have htid : t._id = oid := findById_some_id ht
    have hd : deleteTicket s id = (removeById s oid, .removed) := by
      rw [deleteTicket_eq, hp]
      simp only [ht, htid]
    rw [hd]
    have halias : ∀ id1 : String, parseObjectId id1 = some oid →
        getTicket s id1 = .json t ∧ getTicket (removeById s oid) id1 = .notFound := by
      intro id1 h1
      unfold getTicket
      rw [h1]
      simp only [ht, findById_removeById_same, and_self]
    refine ⟨rfl, (halias id hp).2, halias, ?_, ?_⟩
    · intro id2 oid2 t2 h2 hne h3
      unfold getTicket
      rw [h2]
      simp only [findById_removeById_ne s oid oid2 hne, h3, and_self]
    · intro id2 h2
      unfold getTicket
      cases hp2 : parseObjectId id2 with
      | none => rfl
      | some oid2 =>
        have hne : oid2 ≠ oid := fun h => h2 (by rw [hp2, h])
        simp only [findById_removeById_ne s oid oid2 hne]

/-- C9 at a collection of two tickets, the first of which is deleted through the
twelve-character form of its id: afterwards the read route answers 404 for the hexadecimal
form of that id and still answers with the second ticket. -/
theorem deleteTicket_notFound_and_removed_witness :
    (deleteTicket
      [{ _id := 30138990049255557934854335340, title := "x", description := "y",
         status := "Open", priority := "Medium", createdBy := 7, assignedTo := none,
         slaDeadline := 28800000, comments := [], createdAt := 0, updatedAt := 0 },
       { _id := 1, title := "a", description := "b", status := "Open", priority := "High",
         createdBy := 7, assignedTo := none, slaDeadline := 14400000, comments := [],
         createdAt := 5, updatedAt := 5 }]
      "abcdefghijkl").2 = .removed ∧
    getTicket (deleteTicket
      [{ _id := 30138990049255557934854335340, title := "x", description := "y",
         status := "Open", priority := "Medium", createdBy := 7, assignedTo := none,
         slaDeadline := 28800000, comments := [], createdAt := 0, updatedAt := 0 },
       { _id := 1, title := "a", description := "b", status := "Open", priority := "High",
         createdBy := 7, assignedTo := none, slaDeadline := 14400000, comments := [],
         createdAt := 5, updatedAt := 5 }]
      "abcdefghijkl").1 "6162636465666768696a6b6c" = .notFound ∧
    getTicket (deleteTicket
      [{ _id := 30138990049255557934854335340, title := "x", description := "y",
         status := "Open", priority := "Medium", createdBy := 7, assignedTo := none,
         slaDeadline := 28800000, comments := [], createdAt := 0, updatedAt := 0 },
       { _id := 1, title := "a", description := "b", status := "Open", priority := "High",
         createdBy := 7, assignedTo := none, slaDeadline := 14400000, comments := [],
         createdAt := 5, updatedAt := 5 }]
      "abcdefghijkl").1 "000000000000000000000001"
      = .json { _id := 1, title := "a", description := "b", status := "Open",
                priority := "High", createdBy := 7, assignedTo := none,
                slaDeadline := 14400000, comments := [], createdAt := 5, updatedAt := 5 } :=
  have h := (deleteTicket_notFound_and_removed
    [{ _id := 30138990049255557934854335340, title := "x", description := "y",
       status := "Open", priority := "Medium", createdBy := 7, assignedTo := none,
       slaDeadline := 28800000, comments := [], createdAt := 0, updatedAt := 0 },
     { _id := 1, title := "a", description := "b", status := "Open", priority := "High",
       createdBy := 7, assignedTo := none, slaDeadline := 14400000, comments := [],
       createdAt := 5, updatedAt := 5 }]
    "abcdefghijkl").2 30138990049255557934854335340
    { _id := 30138990049255557934854335340, title := "x", description := "y",
      status := "Open", priority := "Medium", createdBy := 7, assignedTo := none,
      slaDeadline := 28800000, comments := [], createdAt := 0, updatedAt := 0 }
    (by decide) (by decide)
  ⟨h.1, (h.2.2.1 "6162636465666768696a6b6c" (by decide)).2,
   (h.2.2.2.1 "000000000000000000000001" 1
      { _id := 1, title := "a", description := "b", status := "Open", priority := "High",
        createdBy := 7, assignedTo := none, slaDeadline := 14400000, comments := [],
        createdAt := 5, updatedAt := 5 }
      (by decide) (by decide) (by decide)).2⟩

/-! ## Values outside the enums -/

/-- C10, evaluated on a sequence of two requests: a ticket is created, then updated with the
status `"banana"` and the priority `"Urgent"`. The update runs no validator, so the ticket
stored afterwards has a status and a priority outside the enums of the schema. -/
theorem reachable_outside_enums :
    ∃ (s : Store) (t : Ticket), Reachable s ∧ t ∈ s ∧
      t.status = "banana" ∧ t.status ∉ statusEnum ∧
      t.priority = "Urgent" ∧ t.priority ∉ priorityEnum := by
  refine ⟨[{ _id := 1, title := "a", description := "b", status := "banana",
             priority := "Urgent", createdBy := 7, assignedTo := none,
             slaDeadline := 28800000, comments := [], createdAt := 0, updatedAt := 0 }],
          { _id := 1, title := "a", description := "b", status := "banana",
            priority := "Urgent", createdBy := 7, assignedTo := none,
            slaDeadline := 28800000, comments := [], createdAt := 0, updatedAt := 0 },
          ⟨[Request.create 7 1 (fun _ => 0)
              { title := .str "a", description := .str "b", priority := .undefined },
            Request.update "000000000000000000000001"
              { title := .undefined, description := .undefined, status := .str "banana",
                priority := .str "Urgent", assignedTo := .undefined, createdBy := .undefined,
                slaDeadline := .undefined, createdAt := .undefined,
                comments := .undefined }], by decide⟩,
          by simp, rfl, by decide, rfl, by decide⟩

/-! ## The time stamp `updatedAt` -/

theorem putTicket_find (s : Store) (id : String) (oid : ObjectId) (t : Ticket)
    (body : UpdateBody) (hid : parseObjectId id = some oid) (ht : findById s oid = some t) :
    (putTicket s id body).1 = s ∨
    ∃ u : SetDoc, castUpdate (updateFields body) = .ok u ∧
      putTicket s id body = (updateById s oid (applySet u), .json (applySet u t)) ∧
      findById (putTicket s id body).1 oid = some (applySet u t) := by
  rw [putTicket_eq, hid]
  simp only [ht]
  cases hc : castUpdate (updateFields body) with
  | error e => exact Or.inl rfl
  | ok u =>
    have hf := findById_updateById_same s oid (applySet u) (fun x hx => hx)
    rw [ht] at hf
    exact Or.inr ⟨u, rfl, by simp only [hf]; rfl, hf⟩

/-- C11, evaluated on an update: a ticket created at clock reading 0 (its `updatedAt` is the
reading 3 of its creation) is stored; whatever the body of an update request for it, the
ticket stored afterwards still has `updatedAt` 3, and the update with `{ status: "Resolved" }`
answers with the ticket whose status is Resolved and whose `updatedAt` is 3: the update
route takes no reading of the clock. The append of a comment to the same ticket, served while
the clock reads 1000, does set `updatedAt` to 1000. -/
theorem putTicket_updatedAt_not_refreshed :
    (postTicket [] 7 1 (fun k => (k : Int))
      { title := .str "a", description := .str "b", priority := .undefined }).1
      = [{ _id := 1, title := "a", description := "b", status := "Open", priority := "Medium",
           createdBy := 7, assignedTo := none, slaDeadline := 28800002, comments := [],
           createdAt := 0, updatedAt := 3 }] ∧
    (∀ body : UpdateBody, ∃ u : Ticket,
      findById (putTicket
        [{ _id := 1, title := "a", description := "b", status := "Open", priority := "Medium",
           createdBy := 7, assignedTo := none, slaDeadline := 28800002, comments := [],
           createdAt := 0, updatedAt := 3 }]
        "000000000000000000000001" body).1 1 = some u ∧ u.updatedAt = 3) ∧
    (putTicket
      [{ _id := 1, title := "a", description := "b", status := "Open", priority := "Medium",
         createdBy := 7, assignedTo := none, slaDeadline := 28800002, comments := [],
         createdAt := 0, updatedAt := 3 }]
      "000000000000000000000001" resolvedBody).2
      = .json { _id := 1, title := "a", description := "b", status := "Resolved",
                priority := "Medium", createdBy := 7, assignedTo := none,
                slaDeadline := 28800002, comments := [], createdAt := 0, updatedAt := 3 } ∧
    (postComment
      [{ _id := 1, title := "a", description := "b", status := "Open", priority := "Medium",
         createdBy := 7, assignedTo := none, slaDeadline := 28800002, comments := [],
         createdAt := 0, updatedAt := 3 }]
      "000000000000000000000001" 7 (some { name := some "Al" }) 2 (fun _ => 1000)
      (.str "hi")).2
      = .json { _id := 1, title := "a", description := "b", status := "Open",
                priority := "Medium", createdBy := 7, assignedTo := none,
                slaDeadline := 28800002,
                comments := [Comment.mk 2 7 (some "Al") "hi" 1000],
                createdAt := 0, updatedAt := 1000 } := by
  refine ⟨by decide, ?_, by decide, by decide⟩
  intro body
  have hid : parseObjectId "000000000000000000000001" = some 1 := by decide
  rcases putTicket_find
    [{ _id := 1, title := "a", description := "b", status := "Open", priority := "Medium",
       createdBy := 7, assignedTo := none, slaDeadline := 28800002, comments := [],
       createdAt := 0, updatedAt := 3 }]
    "000000000000000000000001" 1
    { _id := 1, title := "a", description := "b", status := "Open", priority := "Medium",
      createdBy := 7, assignedTo := none, slaDeadline := 28800002, comments := [],
      createdAt := 0, updatedAt := 3 }
    body hid (by decide) with h | h
  · rw [h]
    exact ⟨{ _id := 1, title := "a", description := "b", status := "Open",
             priority := "Medium", createdBy := 7, assignedTo := none,
             slaDeadline := 28800002, comments := [], createdAt := 0, updatedAt := 3 },
      by decide, rfl⟩
  · obtain ⟨u, _, _, hf⟩ := h
    exact ⟨_, hf, rfl⟩

/-! ## `updatedAt` is not before `createdAt` -/

theorem mem_updateById {s : Store} {id : ObjectId} {f : Ticket → Ticket} {x : Ticket}
    (h : x ∈ updateById s id f) : x ∈ s ∨ ∃ t ∈ s, x = f t := by
  unfold updateById at h
  rw [List.mem_map] at h
  obtain ⟨t, ht, hx⟩ := h
  by_cases hid : (t._id == id) = true
  · rw [if_pos hid] at hx
    exact Or.inr ⟨t, ht, hx.symm⟩
  · rw [if_neg hid] at hx
    exact Or.inl (hx ▸ ht)

theorem mem_removeById {s : Store} {id : ObjectId} {x : Ticket}
    (h : x ∈ removeById s id) : x ∈ s := by
  unfold removeById at h
  exact (List.mem_filter.mp h).1

theorem findById_mem {s : Store} {id : ObjectId} {t : Ticket} (h : findById s id = some t) :
    t ∈ s :=
  List.mem_of_find?_eq_some h

/-- What a request makes of the time stamps: a ticket stored after it either was stored
before with the same `createdAt` and with the same `updatedAt` or one that is a reading of the
request, or it is the ticket a creation made, whose `createdAt` and `updatedAt` are the first
and the fourth reading of the request. -/
theorem serve_times {s : Store} {r : Request} {x : Ticket} (h : x ∈ serve s r) :
    (∃ t ∈ s, x.createdAt = t.createdAt ∧
      (x.updatedAt = t.updatedAt ∨ x.updatedAt ∈ r.readings)) ∨
    (∃ clock : Nat → Time, r.readings = [clock 0, clock 1, clock 2, clock 3] ∧
      x.createdAt = clock 0 ∧ x.updatedAt = clock 3) := by
  cases r with
  | create userId newId clock body =>
    simp only [serve] at h
    rw [postTicket_eq] at h
    cases hv : validate (preValidate (newTicket newId userId body clock) clock 2) with
    | error e =>
      rw [hv] at h
      exact Or.inl ⟨x, h, rfl, Or.inl rfl⟩
    | ok t =>
      rw [hv] at h
      by_cases hf : (findById s t._id).isSome
      · simp only [hf, if_true] at h
        exact Or.inl ⟨x, h, rfl, Or.inl rfl⟩
      · simp only [hf, Bool.false_eq_true, if_false] at h
        rcases List.mem_append.mp h with hx | hx
        · exact Or.inl ⟨x, hx, rfl, Or.inl rfl⟩
        · have hxt : x = t := by simpa using hx
          obtain ⟨_, _, _, _, _, _, _, _, _, _, _, _, hca, hua⟩ := preValidate_newTicket_ok hv
          exact Or.inr ⟨clock, rfl, hxt ▸ hca, hxt ▸ hua⟩
  | update id body =>
    simp only [serve] at h
    rw [putTicket_eq] at h
    cases hp : parseObjectId id with
    | none =>
      rw [hp] at h
      exact Or.inl ⟨x, h, rfl, Or.inl rfl⟩
    | some oid =>
      rw [hp] at h
      cases hf : findById s oid with
      | none =>
        simp only [hf] at h
        exact Or.inl ⟨x, h, rfl, Or.inl rfl⟩
      | some t =>
        simp only [hf] at h
        cases hc : castUpdate (updateFields body) with
        | error e =>
          simp only [hc] at h
          exact Or.inl ⟨x, h, rfl, Or.inl rfl⟩
        | ok u =>
          simp only [hc] at h
          rcases mem_updateById h with hx | ⟨y, hy, hxy⟩
          · exact Or.inl ⟨x, hx, rfl, Or.inl rfl⟩
          · exact Or.inl ⟨y, hy, by rw [hxy]; rfl, Or.inl (by rw [hxy]; rfl)⟩
  | comment id userId user commentId clock text =>
    simp only [serve] at h
    rw [postComment_eq] at h
    cases hp : parseObjectId id with
    | none =>
      rw [hp] at h
      exact Or.inl ⟨x, h, rfl, Or.inl rfl⟩
    | some oid =>
      rw [hp] at h
      cases hf : findById s oid with
      | none =>
        simp only [hf] at h
        exact Or.inl ⟨x, h, rfl, Or.inl rfl⟩
      | some t =>
        simp only [hf] at h
        cases user with
        | none => exact Or.inl ⟨x, h, rfl, Or.inl rfl⟩
        | some usr =>
          simp only at h
          cases hv : validate (preValidate
              (pushComment (load t) commentId userId usr.name text clock 0) clock 1) with
          | error e =>
            simp only [hv] at h
            exact Or.inl ⟨x, h, rfl, Or.inl rfl⟩
          | ok u =>
            simp only [hv] at h
            obtain ⟨txt, _, _, hu⟩ := validate_pushComment_ok hv
            rcases mem_updateById h with hx | ⟨y, _, hxy⟩
            · exact Or.inl ⟨x, hx, rfl, Or.inl rfl⟩
            · refine Or.inl ⟨t, findById_mem hf, by rw [hxy, hu], Or.inr ?_⟩
              rw [hxy, hu]
              simp [Request.readings]
  | delete id =>
    simp only [serve] at h
    rw [deleteTicket_eq] at h
    cases hp : parseObjectId id with
    | none =>
      rw [hp] at h
      exact Or.inl ⟨x, h, rfl, Or.inl rfl⟩
    | some oid =>
      rw [hp] at h
      cases hf : findById s oid with
      | none =>
        simp only [hf] at h
        exact Or.inl ⟨x, h, rfl, Or.inl rfl⟩
      | some t =>
        simp only [hf] at h
        exact Or.inl ⟨x, mem_removeById h, rfl, Or.inl rfl⟩

theorem serveAll_times (rs : List Request) :
    ∀ s : Store, (allReadings rs).Pairwise (fun a b => a ≤ b) →
      (∀ t ∈ s, t.createdAt ≤ t.updatedAt ∧ ∀ x ∈ allReadings rs, t.createdAt ≤ x) →
      ∀ t ∈ serveAll s rs, t.createdAt ≤ t.updatedAt := by
  induction rs with
  | nil =>
    intro s _ hs t ht
    exact (hs t ht).1
  | cons r rs ih =>
    intro s hp hs
    simp only [allReadings, List.pairwise_append] at hp
    obtain ⟨hr, hrs, hcross⟩ := hp
    have hstep : ∀ t ∈ serve s r,
        t.createdAt ≤ t.updatedAt ∧ ∀ x ∈ allReadings rs, t.createdAt ≤ x := by
      intro x hx
      rcases serve_times hx with ⟨t, ht, hc, hu⟩ | ⟨clock, hrd, hc, hu⟩
      · obtain ⟨h1, h2⟩ := hs t ht
        constructor
        · rcases hu with hu | hu
          · rw [hc, hu]; exact h1
          · rw [hc]
            exact h2 _ (by simp only [allReadings]; exact List.mem_append_left _ hu)
        · intro y hy
          rw [hc]
          exact h2 y (by simp only [allReadings]; exact List.mem_append_right _ hy)
      · rw [hrd] at hr hcross
        constructor
        · rw [hc, hu]
          simp only [List.pairwise_cons, List.mem_cons, List.mem_singleton] at hr
          exact hr.1 _ (Or.inr (Or.inr (Or.inl rfl)))
        · intro y hy
          rw [hc]
          exact hcross _ (List.mem_cons_self _ _) y hy
    exact ih (serve s r) hrs hstep

/-- C12: when the readings of the clock never decrease over a sequence of requests (create,
update, comment and also delete requests, with any bodies), every ticket stored after the
sequence, served from the empty collection, has `updatedAt` at or after `createdAt`. -/
theorem updatedAt_ge_createdAt (rs : List Request) (h : ClockNeverDecreases rs) :
    ∀ t ∈ serveAll [] rs, t.updatedAt ≥ t.createdAt := by
  intro t ht
  exact serveAll_times rs [] h (fun _ hx => absurd hx (List.not_mem_nil _)) t ht

/-- C12 at a creation followed by an update and a comment, under a clock that reads 0 to 3
during the creation and 10 and 11 during the comment. -/
theorem updatedAt_ge_createdAt_witness :
    serveAll []
      [Request.create 7 1 (fun k => (k : Int))
         { title := .str "a", description := .str "b", priority := .undefined },
       Request.update "000000000000000000000001" resolvedBody,
       Request.comment "000000000000000000000001" 7 (some { name := some "Al" }) 2
         (fun k => 10 + (k : Int)) (.str "hi")]
      = [{ _id := 1, title := "a", description := "b", status := "Resolved",
           priority := "Medium", createdBy := 7, assignedTo := none,
           slaDeadline := 28800002, comments := [Comment.mk 2 7 (some "Al") "hi" 10],
           createdAt := 0, updatedAt := 11 }] ∧
    ∀ t ∈ serveAll []
      [Request.create 7 1 (fun k => (k : Int))
         { title := .str "a", description := .str "b", priority := .undefined },
       Request.update "000000000000000000000001" resolvedBody,
       Request.comment "000000000000000000000001" 7 (some { name := some "Al" }) 2
         (fun k => 10 + (k : Int)) (.str "hi")], t.updatedAt ≥ t.createdAt :=
  ⟨by decide,
   updatedAt_ge_createdAt
      [Request.create 7 1 (fun k => (k : Int))
         { title := .str "a", description := .str "b", priority := .undefined },
       Request.update "000000000000000000000001" resolvedBody,
       Request.comment "000000000000000000000001" 7 (some { name := some "Al" }) 2
         (fun k => 10 + (k : Int)) (.str "hi")]
      (by decide)⟩

/-! ## Falsy values of an update -/

theorem toDigitsCore_ne_nil (b fuel n : Nat) (ds : List Char) (h : ds ≠ [] ∨ 0 < fuel) :
    Nat.toDigitsCore b fuel n ds ≠ [] := by
  induction fuel generalizing n ds with
  | zero =>
    rcases h with h | h
    · simpa [Nat.toDigitsCore] using h
    · exact absurd h (by decide)
  | succ f ih =>
    simp only [Nat.toDigitsCore]
    split
    · simp
    · exact ih _ _ (Or.inl (by simp))

theorem nat_toString_ne_empty (n : Nat) : toString n ≠ "" := by
  show Nat.repr n ≠ ""
  unfold Nat.repr Nat.toDigits
  intro h
  have h2 := congrArg String.data h
  simp only [List.asString] at h2
  exact toDigitsCore_ne_nil 10 (n + 1) n [] (Or.inr (Nat.succ_pos n)) h2

theorem int_toString_ne_empty (n : Int) : toString n ≠ "" := by
  cases n with
  | ofNat m => exact nat_toString_ne_empty m
  | negSucc m =>
    show "-" ++ toString (Nat.succ m) ≠ ""
    intro h
    have h2 := congrArg String.length h
    simp [String.length_append] at h2
    exact absurd h2.1 (by decide)

theorem nat_toString_data_ne_nil (n : Nat) : (toString n).data ≠ [] := by
  intro h
  apply nat_toString_ne_empty n
  show toString n = String.mk []
  rw [← h]

theorem bigText_ne_empty (d : Nat) : bigText d ≠ "" := by
  unfold bigText
  intro h
  have h2 := congrArg String.data h
  cases hs : shortest d 17 1 with
  | mk s n =>
    rw [hs] at h2
    dsimp only at h2
    split at h2
    · simp only [String.data_append] at h2
      exact nat_toString_data_ne_nil s (List.append_eq_nil.mp h2).1
    · simp only [String.data_append] at h2
      have h3 := (List.append_eq_nil.mp (List.append_eq_nil.mp h2).1).2
      exact absurd h3 (by decide)

theorem numberText_ne_empty (n : Int) : numberText n ≠ "" := by
  unfold numberText
  split
  · exact int_toString_ne_empty n
  · split
    · split <;> decide
    · intro h
      have h2 := congrArg String.data h
      simp only [String.data_append] at h2
      have h3 := (List.append_eq_nil.mp h2).2
      apply bigText_ne_empty (nearestDouble n.natAbs)
      show bigText (nearestDouble n.natAbs) = String.mk []
      rw [← h3]

theorem castString_truthy {v : JVal} {r : Option String} (hv : v.truthy = true)
    (hc : castString v = some r) : ∃ x : String, r = some x ∧ x ≠ "" := by
  cases v with
  | undefined => simp [JVal.truthy] at hv
  | null => simp [JVal.truthy] at hv
  | bool b =>
    simp only [JVal.truthy] at hv
    subst hv
    simp only [castString, JVal.text, if_true, Option.some.injEq] at hc
    exact ⟨"true", hc.symm, by decide⟩
  | num n =>
    simp only [castString, JVal.text, Option.some.injEq] at hc
    exact ⟨numberText n, hc.symm, numberText_ne_empty n⟩
  | fraction first rest =>
    simp only [castString, JVal.text, Option.some.injEq] at hc
    refine ⟨String.mk (first :: rest.data), hc.symm, ?_⟩
    intro h
    have h2 := congrArg String.data h
    exact absurd h2 (by simp)
  | str x =>
    simp only [castString, Option.some.injEq] at hc
    simp only [JVal.truthy, bne_iff_ne, ne_eq] at hv
    exact ⟨x, hc.symm, hv⟩
  | array text => simp [castString] at hc
  | object => simp [castString] at hc

theorem castObjectId_truthy {v : JVal} {r : Option ObjectId} (hv : v.truthy = true)
    (hc : castObjectId v = some r) : r ≠ none := by
  have key : ∀ t : String, (parseObjectId t).map some = some r → r ≠ none := by
    intro t ht
    simp only [Option.map_eq_some'] at ht
    obtain ⟨a, _, ha⟩ := ht
    rw [← ha]
    simp
  cases v with
  | undefined => simp [JVal.truthy] at hv
  | null => simp [JVal.truthy] at hv
  | bool b => exact key _ hc
  | num n => exact key _ hc
  | fraction first rest => exact key _ hc
  | str x => exact key _ hc
  | array text => exact key _ hc
  | object => exact key JVal.object.text hc

theorem castStringPath_pick {v : JVal} {r : Option String}
    (h : castStringPath (pick v) = .ok r) :
    (v.truthy = false → r = none) ∧ (v.truthy = true → ∃ x : String, r = some x ∧ x ≠ "") := by
  unfold pick at h
  by_cases hv : v.truthy = true
  · rw [if_pos hv] at h
    simp only [castStringPath] at h
    cases hc : castString v with
    | none => rw [hc] at h; exact absurd h (by simp)
    | some r2 =>
      rw [hc] at h
      injection h with h
      subst h
      exact ⟨fun hf => absurd hv (by simp [hf]), fun _ => castString_truthy hv hc⟩
  · rw [if_neg hv] at h
    simp only [castStringPath] at h
    injection h with h
    exact ⟨fun _ => h.symm, fun ht => absurd ht hv⟩

theorem castObjectIdPath_pick {v : JVal} {r : Option ObjectId}
    (h : castObjectIdPath (pick v) = .ok r) :
    (v.truthy = false → r = none) ∧ (v.truthy = true → r ≠ none) := by
  unfold pick at h
  by_cases hv : v.truthy = true
  · rw [if_pos hv] at h
    simp only [castObjectIdPath] at h
    cases hc : castObjectId v with
    | none => rw [hc] at h; exact absurd h (by simp)
    | some r2 =>
      rw [hc] at h
      injection h with h
      subst h
      exact ⟨fun hf => absurd hv (by simp [hf]), fun _ => castObjectId_truthy hv hc⟩
  · rw [if_neg hv] at h
    simp only [castObjectIdPath] at h
    injection h with h
    exact ⟨fun _ => h.symm, fun ht => absurd ht hv⟩

theorem castUpdate_ok {f : UpdateFields} {u : SetDoc} (h : castUpdate f = .ok u) :
    castStringPath f.title = .ok u.title ∧ castStringPath f.description = .ok u.description ∧
    castStringPath f.status = .ok u.status ∧ castStringPath f.priority = .ok u.priority ∧
    castObjectIdPath f.assignedTo = .ok u.assignedTo := by
  unfold castUpdate at h
  cases h5 : castObjectIdPath f.assignedTo with
  | error e => rw [h5] at h; exact absurd h (by simp)
  | ok a5 =>
    cases h4 : castStringPath f.priority with
    | error e => rw [h5, h4] at h; exact absurd h (by simp)
    | ok a4 =>
      cases h3 : castStringPath f.status with
      | error e => rw [h5, h4, h3] at h; exact absurd h (by simp)
      | ok a3 =>
        cases h2 : castStringPath f.description with
        | error e => rw [h5, h4, h3, h2] at h; exact absurd h (by simp)
        | ok a2 =>
          cases h1 : castStringPath f.title with
          | error e => rw [h5, h4, h3, h2, h1] at h; exact absurd h (by simp)
          | ok a1 =>
            rw [h5, h4, h3, h2, h1] at h
            injection h with h
            subst h
            exact ⟨rfl, rfl, rfl, rfl, rfl⟩

/-- C13: the empty string, `null`, `false`, `0` and an absent key are falsy; and for every
ticket `t` stored under the id of an update request and every body of the request, the ticket
stored under that id afterwards keeps the title, description, status, priority and
`assignedTo` of `t` wherever the value the body holds for that key is falsy. Hence, whatever
the body, a title or description that was not empty is not empty afterwards, and an
`assignedTo` that was set is still set. -/
theorem putTicket_falsy_keeps (s : Store) (id : String) (oid : ObjectId) (t : Ticket)
    (body : UpdateBody) (hid : parseObjectId id = some oid) (ht : findById s oid = some t) :
    ((JVal.str "").truthy = false ∧ JVal.null.truthy = false ∧
      (JVal.bool false).truthy = false ∧ (JVal.num 0).truthy = false ∧
      JVal.undefined.truthy = false) ∧
    ∃ u : Ticket, findById (putTicket s id body).1 oid = some u ∧
      (body.title.truthy = false → u.title = t.title) ∧
      (body.description.truthy = false → u.description = t.description) ∧
      (body.status.truthy = false → u.status = t.status) ∧
      (body.priority.truthy = false → u.priority = t.priority) ∧
      (body.assignedTo.truthy = false → u.assignedTo = t.assignedTo) ∧
      (t.title ≠ "" → u.title ≠ "") ∧
      (t.description ≠ "" → u.description ≠ "") ∧
      (t.assignedTo ≠ none → u.assignedTo ≠ none) := by
  refine ⟨⟨by decide, by decide, by decide, by decide, by decide⟩, ?_⟩
  rcases putTicket_find s id oid t body hid ht with h | ⟨u, hc, _, hf⟩
  · rw [h]
    exact ⟨t, ht, fun _ => rfl, fun _ => rfl, fun _ => rfl, fun _ => rfl, fun _ => rfl,
      fun h => h, fun h => h, fun h => h⟩
  · obtain ⟨h1, h2, h3, h4, h5⟩ := castUpdate_ok hc
    simp only [updateFields] at h1 h2 h3 h4 h5
    obtain ⟨f1, t1⟩ := castStringPath_pick h1
    obtain ⟨f2, t2⟩ := castStringPath_pick h2
    obtain ⟨f3, _⟩ := castStringPath_pick h3
    obtain ⟨f4, _⟩ := castStringPath_pick h4
    obtain ⟨f5, t5⟩ := castObjectIdPath_pick h5
    refine ⟨applySet u t, hf, ?_, ?_, ?_, ?_, ?_, ?_, ?_, ?_⟩
    · intro hv; simp only [applySet, f1 hv, Option.getD_none]
    · intro hv; simp only [applySet, f2 hv, Option.getD_none]
    · intro hv; simp only [applySet, f3 hv, Option.getD_none]
    · intro hv; simp only [applySet, f4 hv, Option.getD_none]
    · intro hv; simp only [applySet, f5 hv]
    · intro hne
      by_cases hv : body.title.truthy = true
      · obtain ⟨x, hx, hxne⟩ := t1 hv
        simp only [applySet, hx, Option.getD_some]
        exact hxne
      · simp only [applySet, f1 (by simpa using hv), Option.getD_none]
        exact hne
    · intro hne
      by_cases hv : body.description.truthy = true
      · obtain ⟨x, hx, hxne⟩ := t2 hv
        simp only [applySet, hx, Option.getD_some]
        exact hxne
      · simp only [applySet, f2 (by simpa using hv), Option.getD_none]
        exact hne
    · intro hne
      by_cases hv : body.assignedTo.truthy = true
      · have := t5 hv
        cases ha : u.assignedTo with
        | none => exact absurd ha this
        | some a => simp [applySet, ha]
      · simp only [applySet, f5 (by simpa using hv)]
        exact hne

/-- C13 at a stored ticket and an update whose title is the empty string, whose description is
`null`, whose status is `false`, whose priority is `0` and whose `assignedTo` is absent. -/
theorem putTicket_falsy_keeps_witness :
    (putTicket
      [{ _id := 1, title := "a", description := "b", status := "Open", priority := "High",
         createdBy := 7, assignedTo := some 8, slaDeadline := 14400000, comments := [],
         createdAt := 0, updatedAt := 3 }]
      "000000000000000000000001"
      { title := .str "", description := .null, status := .bool false, priority := .num 0,
        assignedTo := .undefined, createdBy := .undefined, slaDeadline := .undefined,
        createdAt := .undefined, comments := .undefined }).1
    = [{ _id := 1, title := "a", description := "b", status := "Open", priority := "High",
         createdBy := 7, assignedTo := some 8, slaDeadline := 14400000, comments := [],
         createdAt := 0, updatedAt := 3 }] ∧
    ∃ u : Ticket,
      findById (putTicket
        [{ _id := 1, title := "a", description := "b", status := "Open", priority := "High",
           createdBy := 7, assignedTo := some 8, slaDeadline := 14400000, comments := [],
           createdAt := 0, updatedAt := 3 }]
        "000000000000000000000001"
        { title := .str "", description := .null, status := .bool false, priority := .num 0,
          assignedTo := .undefined, createdBy := .undefined, slaDeadline := .undefined,
          createdAt := .undefined, comments := .undefined }).1 1 = some u ∧
      u.title = "a" :=
  ⟨by decide,
   match (putTicket_falsy_keeps
      [{ _id := 1, title := "a", description := "b", status := "Open", priority := "High",
         createdBy := 7, assignedTo := some 8, slaDeadline := 14400000, comments := [],
         createdAt := 0, updatedAt := 3 }]
      "000000000000000000000001" 1
      { _id := 1, title := "a", description := "b", status := "Open", priority := "High",
        createdBy := 7, assignedTo := some 8, slaDeadline := 14400000, comments := [],
        createdAt := 0, updatedAt := 3 }
      { title := .str "", description := .null, status := .bool false, priority := .num 0,
        assignedTo := .undefined, createdBy := .undefined, slaDeadline := .undefined,
        createdAt := .undefined, comments := .undefined }
      (by decide) (by decide)).2 with
   | ⟨u, h1, h2, _⟩ => ⟨u, h1, h2 (by decide)⟩⟩

/-! ## The text of the time left -/

theorem toDigitsCore_mem (fuel n : Nat) (ds : List Char) (c : Char)
    (h : c ∈ Nat.toDigitsCore 10 fuel n ds) :
    c ∈ ds ∨ ∃ k : Nat, k < 10 ∧ c = Nat.digitChar k := by
  induction fuel generalizing n ds with
  | zero =>
    simp only [Nat.toDigitsCore] at h
    exact Or.inl h
  | succ f ih =>
    simp only [Nat.toDigitsCore] at h
    split at h
    · rcases List.mem_cons.mp h with h | h
      · exact Or.inr ⟨n % 10, Nat.mod_lt _ (by decide), h⟩
      · exact Or.inl h
    · rcases ih _ _ h with h | h
      · rcases List.mem_cons.mp h with h | h
        · exact Or.inr ⟨n % 10, Nat.mod_lt _ (by decide), h⟩
        · exact Or.inl h
      · exact Or.inr h

theorem digitChar_ne_O (k : Nat) (hk : k < 10) : Nat.digitChar k ≠ 'O' := by
  interval_cases k <;> decide

theorem nat_toString_head (n : Nat) :
    ∃ (c : Char) (cs : List Char), (toString n).data = c :: cs ∧ c ≠ 'O' := by
  have hdata : (toString n).data = Nat.toDigitsCore 10 (n + 1) n [] := rfl
  cases hl : Nat.toDigitsCore 10 (n + 1) n [] with
  | nil => exact absurd hl (toDigitsCore_ne_nil 10 (n + 1) n [] (Or.inr (Nat.succ_pos n)))
  | cons c cs =>
    refine ⟨c, cs, by rw [hdata, hl], ?_⟩
    have hc : c ∈ Nat.toDigitsCore 10 (n + 1) n [] := by rw [hl]; exact List.mem_cons_self c cs
    rcases toDigitsCore_mem (n + 1) n [] c hc with h | ⟨k, hk, h⟩
    · exact absurd h (List.not_mem_nil c)
    · rw [h]; exact digitChar_ne_O k hk

/-- C14: for every deadline and every time `now`, with `d` the difference `deadline - now`,
`h` the quotient of the absolute value of `d` by 3600000 and `m` the quotient by 60000 of its
remainder modulo 3600000, `formatTimeLeft` yields `"Overdue by {h}h {m}m"` when `d < 0` and
`"{h}h {m}m left"` otherwise; its result has the form `"Overdue by {a}h {b}m"` exactly when
`d < 0`; and `m < 60` and `60 * h + m` is the quotient of the absolute value of `d` by
60000. -/
theorem formatTimeLeft_eq (deadline now : Time) :
    formatTimeLeft deadline now =
      (if deadline - now < 0 then
        "Overdue by " ++ toString ((deadline - now).natAbs / 3600000) ++ "h " ++
          toString (((deadline - now).natAbs % 3600000) / 60000) ++ "m"
       else
        toString ((deadline - now).natAbs / 3600000) ++ "h " ++
          toString (((deadline - now).natAbs % 3600000) / 60000) ++ "m left") ∧
    ((∃ a b : Nat, formatTimeLeft deadline now =
        "Overdue by " ++ toString a ++ "h " ++ toString b ++ "m") ↔ deadline - now < 0) ∧
    ((deadline - now).natAbs % 3600000) / 60000 < 60 ∧
    60 * ((deadline - now).natAbs / 3600000) + ((deadline - now).natAbs % 3600000) / 60000
      = (deadline - now).natAbs / 60000 := by
  have heq : formatTimeLeft deadline now =
      (if deadline - now < 0 then
        "Overdue by " ++ toString ((deadline - now).natAbs / 3600000) ++ "h " ++
          toString (((deadline - now).natAbs % 3600000) / 60000) ++ "m"
       else
        toString ((deadline - now).natAbs / 3600000) ++ "h " ++
          toString (((deadline - now).natAbs % 3600000) / 60000) ++ "m left") := rfl
  refine ⟨heq, ?_, by omega, by omega⟩
  constructor
  · rintro ⟨a, b, hab⟩
    by_contra hd
    rw [heq, if_neg hd] at hab
    obtain ⟨c, cs, hc, hne⟩ := nat_toString_head ((deadline - now).natAbs / 3600000)
    have h2 := congrArg String.data hab
    simp only [String.data_append, hc, List.cons_append] at h2
    injection h2 with h4 _
    exact hne h4
  · intro hd
    exact ⟨_, _, by rw [heq, if_pos hd]⟩

/-! ## The SLA classification over time -/

theorem getSLAStatus_open (ticket : Ticket) (now : Time)
    (h1 : ticket.status ≠ "Resolved") (h2 : ticket.status ≠ "Closed") :
    (getSLAStatus ticket now).status =
      (if ticket.slaDeadline - now < 0 then "Breached"
       else if ticket.slaDeadline - now < 3600000 then "Critical"
       else "On Track") := by
  unfold getSLAStatus
  simp only [hoursLeft_neg_iff, hoursLeft_lt_one_iff, h1, h2, or_self, if_false]
  by_cases h3 : ticket.slaDeadline - now < 0
  · simp only [h3, if_true]
  · simp only [h3, if_false]
    by_cases h4 : ticket.slaDeadline - now < 3600000
    · simp only [h4, if_true]
    · simp only [h4, if_false]

/-- C15: with the ranks 0 for On Track, 1 for Critical and 2 for Breached, for every ticket
whose status is neither Resolved nor Closed and all times `now1 ≤ now2`, the rank of the
status `getSLAStatus` gives at `now1` is at most the rank of the one it gives at `now2`. -/
theorem getSLAStatus_rank_mono (ticket : Ticket) (now1 now2 : Time)
    (h1 : ticket.status ≠ "Resolved") (h2 : ticket.status ≠ "Closed") (h : now1 ≤ now2) :
    (slaRank "On Track" = 0 ∧ slaRank "Critical" = 1 ∧ slaRank "Breached" = 2) ∧
    slaRank (getSLAStatus ticket now1).status ≤ slaRank (getSLAStatus ticket now2).status := by
  refine ⟨⟨by decide, by decide, by decide⟩, ?_⟩
  rw [getSLAStatus_open ticket now1 h1 h2, getSLAStatus_open ticket now2 h1 h2]
  have hle : ticket.slaDeadline - now2 ≤ ticket.slaDeadline - now1 := by linarith
  have r0 : slaRank "On Track" = 0 := by decide
  have r1 : slaRank "Critical" = 1 := by decide
  have r2 : slaRank "Breached" = 2 := by decide
  by_cases a1 : ticket.slaDeadline - now1 < 0
  · have a2 : ticket.slaDeadline - now2 < 0 := lt_of_le_of_lt hle a1
    simp only [a1, a2, if_true, le_refl]
  · by_cases b1 : ticket.slaDeadline - now1 < 3600000
    · have b2 : ticket.slaDeadline - now2 < 3600000 := lt_of_le_of_lt hle b1
      by_cases a2 : ticket.slaDeadline - now2 < 0
      · simp only [a1, b1, a2, if_true, if_false, r1, r2]
        decide
      · simp only [a1, b1, a2, b2, if_true, if_false, le_refl]
    · simp only [a1, b1, if_false, r0]
      exact Nat.zero_le _

/-- C15 at a ticket whose deadline is 7200000: On Track at time 0, Breached at time
7200001. -/
theorem getSLAStatus_rank_mono_witness :
    (getSLAStatus
      { _id := 1, title := "a", description := "b", status := "Open", priority := "High",
        createdBy := 7, assignedTo := none, slaDeadline := 7200000, comments := [],
        createdAt := 0, updatedAt := 0 } 0).status = "On Track" ∧
    (getSLAStatus
      { _id := 1, title := "a", description := "b", status := "Open", priority := "High",
        createdBy := 7, assignedTo := none, slaDeadline := 7200000, comments := [],
        createdAt := 0, updatedAt := 0 } 7200001).status = "Breached" ∧
    slaRank (getSLAStatus
      { _id := 1, title := "a", description := "b", status := "Open", priority := "High",
        createdBy := 7, assignedTo := none, slaDeadline := 7200000, comments := [],
        createdAt := 0, updatedAt := 0 } 0).status ≤
    slaRank (getSLAStatus
      { _id := 1, title := "a", description := "b", status := "Open", priority := "High",
        createdBy := 7, assignedTo := none, slaDeadline := 7200000, comments := [],
        createdAt := 0, updatedAt := 0 } 7200001).status :=
  ⟨by rw [getSLAStatus_open _ _ (by decide) (by decide)]; decide,
   by rw [getSLAStatus_open _ _ (by decide) (by decide)]; decide,
   (getSLAStatus_rank_mono
      { _id := 1, title := "a", description := "b", status := "Open", priority := "High",
        createdBy := 7, assignedTo := none, slaDeadline := 7200000, comments := [],
        createdAt := 0, updatedAt := 0 } 0 7200001 (by decide) (by decide) (by decide)).2⟩

end HelpDesk
